import Mathlib

/-!
# Guided missile strategy (`src/clientbase/GuidedMissleStrategy.cxx`)

A shallow embedding of `GuidedMissileStrategy`: the per-tick `update`, the
collision helper `checkBuildings`, the read-only predictor `_predict`, and the
network pair `sendUpdate` / `readUpdate`.

Conventions of the embedding.

* `float` and `double` quantities are elements of one linearly ordered field
  `F` and the arithmetic steps are exact, with one exception: the narrowing
  of the `double` clock to `float` in `_predict` (line 252), which `update`
  does not perform, is the field `narrow` of `Env`.  The rounding of the
  `double` sum of line 205 is looked at separately, with `groundEndTime`.
  Concrete evaluations use `F = ℚ`.
* Member variables of the strategy and of the `ShotPath` it drives are the
  fields of `State`; a method is a function from the state before the call to
  the state after it, together with the list of notifications it issued, in
  the order of issue (`Event`).
* Everything the method bodies call but this file does not define (the vector
  library, the geometry query, the link manager, the player registry, the
  configuration database) is a field of `Env`.
-/

set_option linter.unusedSectionVars false

namespace GuidedMissileStrategy

/-! ## Vectors and rays -/

/-- Three-component vector (`fvec3`). -/
structure fvec3 (F : Type) where
  x : F
  y : F
  z : F
deriving DecidableEq, Repr

namespace fvec3

variable {F : Type} [LinearOrderedField F]

/-- Componentwise sum. -/
def add (a b : fvec3 F) : fvec3 F := ⟨a.x + b.x, a.y + b.y, a.z + b.z⟩

/-- Componentwise difference. -/
def sub (a b : fvec3 F) : fvec3 F := ⟨a.x - b.x, a.y - b.y, a.z - b.z⟩

/-- Scaling by a scalar (`k * v`, `v * k`, `v *= k`). -/
def scale (k : F) (v : fvec3 F) : fvec3 F := ⟨k * v.x, k * v.y, k * v.z⟩

/-- Scalar product (`fvec3::dot`). -/
def dot (a b : fvec3 F) : F := a.x * b.x + a.y * b.y + a.z * b.z

/-- Vector product (`fvec3::cross`). -/
def cross (a b : fvec3 F) : fvec3 F :=
  ⟨a.y * b.z - a.z * b.y, a.z * b.x - a.x * b.z, a.x * b.y - a.y * b.x⟩

/-- The zero vector. -/
def zero : fvec3 F := ⟨0, 0, 0⟩

end fvec3

/-- Modelled from the spec: `Ray` (its header is not part of the sources).  A
ray is an origin and a direction; the constructor stores both as given. -/
structure Ray (F : Type) where
  origin : fvec3 F
  direction : fvec3 F
deriving DecidableEq, Repr

/-- Modelled from the spec: `Ray::getPoint` (its header is not part of the
sources); the spec integrates the position as the ray's point at parameter
`t`, that is `origin + t * direction`. -/
def Ray.getPoint {F : Type} [LinearOrderedField F] (r : Ray F) (t : F) : fvec3 F :=
  fvec3.add r.origin (fvec3.scale t r.direction)

/-! ## Data model -/

/-- One byte on the wire. -/
abbrev Byte := Fin 256

/-- Player identifiers are unsigned 8-bit values (they are packed with
`nboPackUInt8`). -/
abbrev PlayerId := Fin 256

/-- An obstacle handle returned by the geometry query. -/
abbrev Obstacle := Nat

/-- A mesh face handle (teleporter link source or destination). -/
abbrev MeshFace := Nat

/-- The part of `LinkPhysics` read here: its pass-through text. -/
structure LinkPhysics where
  ident : Nat
  shotPassText : String
deriving DecidableEq, Repr

/-- What `linkManager.getShotLinkDst` hands back when a destination exists:
the destination face, the two link ids and the link physics. -/
structure LinkDst where
  linkDst : MeshFace
  linkSrcID : Int
  linkDstID : Int
  physics : LinkPhysics
deriving DecidableEq, Repr

/-- The part of a `Player` that `update` and `_predict` read. -/
structure Player (F : Type) where
  id : PlayerId
  pos : fvec3 F
  muzzleHeight : F
  /-- `getFlag() == Flags::Stealth` -/
  isStealth : Bool
  /-- `(getStatus() & short(PlayerState::Alive)) != 0` -/
  isAlive : Bool
deriving DecidableEq, Repr

/-- The shot descriptor inside `FiringInfo` (`f.shot`). -/
structure ShotUpdate (F : Type) where
  player : PlayerId
  id : Nat
  pos : fvec3 F
  vel : fvec3 F
  team : Nat
deriving DecidableEq, Repr

/-- Firing descriptor (`FiringInfo`). -/
structure FiringInfo (F : Type) where
  shot : ShotUpdate F
  flagType : Nat
  lifetime : F
deriving DecidableEq, Repr

/-- The `ShotPath` the strategy drives. -/
structure ShotPath (F : Type) where
  firingInfo : FiringInfo F
  startTime : F
  expiring : Bool
deriving DecidableEq, Repr

namespace ShotPath

variable {F : Type}

def getPlayer (p : ShotPath F) : PlayerId := p.firingInfo.shot.player
def getShotId (p : ShotPath F) : Nat := p.firingInfo.shot.id
def getPosition (p : ShotPath F) : fvec3 F := p.firingInfo.shot.pos
def getVelocity (p : ShotPath F) : fvec3 F := p.firingInfo.shot.vel
def getTeam (p : ShotPath F) : Nat := p.firingInfo.shot.team
def getFlag (p : ShotPath F) : Nat := p.firingInfo.flagType
def getLifetime (p : ShotPath F) : F := p.firingInfo.lifetime
def getStartTime (p : ShotPath F) : F := p.startTime

end ShotPath

/-- One quantum of travel (`ShotPathSegment`). -/
structure ShotPathSegment (F : Type) where
  start : F
  finish : F
  ray : Ray F
deriving DecidableEq, Repr

/-- Notifications issued by the strategy, fire-and-forget. -/
inductive Event (F : Type) where
  /-- `addShotExplosion(pos)` -/
  | explosion (pos : fvec3 F)
  /-- `addShotPuff(pos, vel)` -/
  | puff (pos vel : fvec3 F)
  /-- `addMessage(NULL, text)` -/
  | message (text : String)
  /-- `eventHandler.ShotTeleported(getPath(), linkSrcID, linkDstID)` -/
  | shotTeleported (shotId : Nat) (linkSrcID linkDstID : Int)
  /-- `ServerLink::getServer()->send(MsgGMUpdate, len, packet)` -/
  | sendGMUpdate (packet : List Byte)
deriving DecidableEq, Repr

/-- Member variables of `GuidedMissileStrategy` together with its path. -/
structure State (F : Type) where
  path : ShotPath F
  currentTime : F
  prevTime : F
  nextPos : fvec3 F
  nextVel : fvec3 F
  speed : F
  lastTarget : PlayerId
  needUpdate : Bool
  segments : List (ShotPathSegment F)
  lastPuff : F
  puffTime : F
  renderTimes : Nat
deriving DecidableEq, Repr

/-- Everything the method bodies consult but do not define. -/
structure Env (F : Type) where
  /-- `fvec3::length` -/
  length : fvec3 F → F
  /-- `fvec3::normalize` -/
  normalize : fvec3 F → fvec3 F
  /-- `v.rotate(radians, axis)` -/
  rotate : fvec3 F → F → fvec3 F → fvec3 F
  /-- `asinf` -/
  asinf : F → F
  /-- the cast `(float)currentTime` of the `double` clock to single
  precision (line 252) -/
  narrow : F → F
  /-- `LocalPlayer::getMyTank()->getId()` -/
  myTankId : PlayerId
  /-- `LocalPlayer::getMyTank()->getTarget()` -/
  myTarget : Option (Player F)
  /-- `lookupPlayer` -/
  lookupPlayer : PlayerId → Option (Player F)
  /-- the `NoPlayer` sentinel -/
  NoPlayer : PlayerId
  /-- `BZDB.eval(BZDBNAMES.GMTURNANGLE)` -/
  gmTurnAngle : F
  /-- `BZDB.eval(BZDBNAMES.GMADLIFE)` -/
  gmAdLife : F
  /-- `BZDB.eval(BZDBNAMES.SHOTSPEED)` -/
  shotSpeed : F
  /-- `BZDB.eval(BZDBNAMES.GMADSPEED)` -/
  gmAdSpeed : F
  /-- `BZDB.eval(BZDBNAMES.MUZZLEFRONT)` -/
  muzzleFront : F
  /-- `BZDB.eval("gmPuffTime")` -/
  gmPuffTime : F
  /-- `World::getWorld() != NULL` -/
  worldPresent : Bool
  /-- the `Epsilon` constant -/
  Epsilon : F
  /-- `getFirstBuilding(ray, min, t)`: the first obstacle hit at a time in
  the window, with the hit time it writes back into `t`; `none` for `NULL` -/
  getFirstBuilding : Ray F → F → F → Option (Obstacle × F)
  /-- `MeshFace::getShotLinkSrc(building)` for a non-null building -/
  getShotLinkSrc : Obstacle → Option MeshFace
  /-- `linkManager.getShotLinkDst(linkSrc, seed, .., pos, vel, team, flag)` -/
  getShotLinkDst : MeshFace → Nat → fvec3 F → fvec3 F → Nat → Nat → Option LinkDst
  /-- `linkSrc->teleportShot(linkDst, physics, pos, pos, vel, vel)` -/
  teleportShot : MeshFace → MeshFace → LinkPhysics → fvec3 F → fvec3 F → fvec3 F × fvec3 F
  /-- `linkSrc->getSpecialData()->linkSrcShotFailText` -/
  linkSrcShotFailText : MeshFace → String
  /-- `TextUtils::unescape_colors` -/
  unescape_colors : String → String
  /-- `ShotUpdate::pack`, the bytes it writes -/
  pack : ShotUpdate F → List Byte

variable {F : Type} [LinearOrderedField F]

/-! ## Path setters -/

/-- `setExpiring()` -/
def setExpiring (s : State F) : State F :=
  { s with path := { s.path with expiring := true } }

/-- `setPosition(pos)` -/
def setPosition (s : State F) (pos : fvec3 F) : State F :=
  { s with path := { s.path with firingInfo :=
      { s.path.firingInfo with shot := { s.path.firingInfo.shot with pos := pos } } } }

/-- `setVelocity(vel)` -/
def setVelocity (s : State F) (vel : fvec3 F) : State F :=
  { s with path := { s.path with firingInfo :=
      { s.path.firingInfo with shot := { s.path.firingInfo.shot with vel := vel } } } }

/-- The test `getPath().getPlayer() != LocalPlayer::getMyTank()->getId()`. -/
def isRemote (env : Env F) (s : State F) : Bool :=
  s.path.getPlayer != env.myTankId

/-! ## `checkBuildings` (lines 352-406) -/

/-- The messages of the unresolved-link branch (lines 376-382): the fail text
is shown when the event falls in the first time unit of the shot's life and
the text is not empty. -/
def failMessages (env : Env F) (s : State F) (linkSrc : MeshFace) (t : F) : List (Event F) :=
  if s.currentTime - s.path.getStartTime + t < 1 then
    (if env.linkSrcShotFailText linkSrc = "" then []
     else [Event.message (env.linkSrcShotFailText linkSrc)])
  else []

/-- The messages of the teleport branch (lines 393-395). -/
def passMessages (env : Env F) (physics : LinkPhysics) : List (Event F) :=
  if physics.shotPassText = "" then []
  else [Event.message (env.unescape_colors physics.shotPassText)]

/-- `checkBuildings(ray)`: the returned hit time, the state after the call and
the notifications issued. -/
def checkBuildings (env : Env F) (s : State F) (ray : Ray F) : F × State F × List (Event F) :=
  if !env.worldPresent then (-1, s, [])
  else
    match env.getFirstBuilding ray env.Epsilon (s.currentTime - s.prevTime) with
    | none => (-1, s, [])
    | some (building, t) =>
      match env.getShotLinkSrc building with
      | none => (t, setExpiring s, [Event.explosion (ray.getPoint t)])
      | some linkSrc =>
        match env.getShotLinkDst linkSrc s.path.getShotId s.nextPos s.nextVel
            s.path.getTeam s.path.getFlag with
        | none =>
          (t, setExpiring s, failMessages env s linkSrc t ++ [Event.explosion (ray.getPoint t)])
        | some d =>
          (t,
           { s with
             nextPos := (env.teleportShot linkSrc d.linkDst d.physics s.nextPos s.nextVel).1
             nextVel := (env.teleportShot linkSrc d.linkDst d.physics s.nextPos s.nextVel).2 },
           passMessages env d.physics ++
             [Event.shotTeleported s.path.getShotId d.linkSrcID d.linkDstID])

/-! ## Target selection and steering -/

/-- The validity filter shared by `update` (lines 151-157) and `_predict`
(lines 271-275): a stealth or dead target is dropped. -/
def validTarget (target : Option (Player F)) : Option (Player F) :=
  match target with
  | none => none
  | some tg => if tg.isStealth || !tg.isAlive then none else some tg

/-- The target `update` resolves before the validity filter (lines 126-136),
which is also the one `_predict` resolves (lines 261-269). -/
def getTarget (env : Env F) (s : State F) : Option (Player F) :=
  if isRemote env s then
    (if s.lastTarget != env.NoPlayer then env.lookupPlayer s.lastTarget else none)
  else env.myTarget

/-- Lines 137-148: a local shot records a change of target. -/
def noteTarget (env : Env F) (s : State F) : State F :=
  if isRemote env s then s
  else
    match env.myTarget with
    | some tg =>
      if s.lastTarget != tg.id then { s with needUpdate := true, lastTarget := tg.id } else s
    | none =>
      if s.lastTarget != env.NoPlayer then
        { s with needUpdate := true, lastTarget := env.NoPlayer }
      else s

/-- Lines 151-157 on the state: an invalid target resets `lastTarget`. -/
def dropInvalid (env : Env F) (target : Option (Player F)) (s : State F) : State F :=
  match target with
  | none => s
  | some tg =>
    if tg.isStealth || !tg.isAlive then
      { s with lastTarget := env.NoPlayer, needUpdate := true }
    else s

/-- The unit direction from `nextPos` to the target raised by its muzzle
height (lines 164-166). -/
def desiredDir (env : Env F) (tg : Player F) (nextPos : fvec3 F) : fvec3 F :=
  env.normalize (fvec3.sub ⟨tg.pos.x, tg.pos.y, tg.pos.z + tg.muzzleHeight⟩ nextPos)

/-- The angle of rotation (lines 172-179): the turn budget, clamped to
`asinf(crossLen)` only when the dot product is positive. -/
def turnAngle (env : Env F) (currentDir desired : fvec3 F) (crossLen dt : F) : F :=
  if env.gmTurnAngle * dt > env.asinf crossLen then
    (if fvec3.dot currentDir desired > 0 then env.asinf crossLen else env.gmTurnAngle * dt)
  else env.gmTurnAngle * dt

/-- The steering block (lines 162-182 of `update`, repeated verbatim as lines
280-300 of `_predict`): the velocity after turning `vel` towards `target`. -/
def steer (env : Env F) (target : Option (Player F)) (nextPos vel : fvec3 F)
    (speed dt : F) : fvec3 F :=
  match target with
  | none => vel
  | some tg =>
    let desired := desiredDir env tg nextPos
    let currentDir := env.normalize vel
    let cross := fvec3.cross currentDir desired
    let crossLen := env.length cross
    if crossLen > 0 then
      fvec3.scale speed
        (env.normalize
          (env.rotate vel (turnAngle env currentDir desired crossLen dt)
            (fvec3.scale (1 / crossLen) cross)))
    else vel

/-! ## `update` (lines 102-225) -/

/-- Lines 112-114: `prevTime = currentTime; currentTime += dt`. -/
def advanceTime (s : State F) (dt : F) : State F :=
  { s with prevTime := s.currentTime, currentTime := s.currentTime + dt }

/-- The lifetime test of line 118 on the advanced clock. -/
def lifetimeOver (s : State F) : Bool :=
  decide (s.currentTime - s.path.getStartTime ≥ s.path.getLifetime)

/-- Lines 125-182: target selection, validity filter and steering; `nextVel`
is the steered path velocity. -/
def aim (env : Env F) (s : State F) (dt : F) : State F :=
  let s1 := dropInvalid env (getTarget env s) (noteTarget env s)
  { s1 with
    nextVel :=
      steer env (validTarget (getTarget env s)) s1.nextPos s1.path.getVelocity s1.speed dt }

/-- Lines 186-192: the render counter and the periodic smoke puff. -/
def puff (s : State F) : State F × List (Event F) :=
  if s.currentTime - s.lastPuff > s.puffTime then
    ({ s with renderTimes := s.renderTimes + 1, lastPuff := s.currentTime },
     [Event.puff s.nextPos s.nextVel])
  else ({ s with renderTimes := s.renderTimes + 1 }, [])

/-- The impact parameter of line 203. -/
def groundT (ray : Ray F) (nextPos : fvec3 F) : F :=
  ray.origin.z / (ray.origin.z - nextPos.z)

/-- Lines 194-215 for a state whose `nextPos` is already `ray.getPoint(dt)`:
the segment end time, the state and the notifications. -/
def collide (env : Env F) (s : State F) (ray : Ray F) : F × State F × List (Event F) :=
  if s.nextPos.z ≤ 0 then
    (s.prevTime + groundT ray s.nextPos * (s.currentTime - s.prevTime),
     { (setExpiring s) with nextPos := ray.getPoint (groundT ray s.nextPos) },
     [Event.explosion (ray.getPoint (groundT ray s.nextPos))])
  else
    ((if (checkBuildings env s ray).1 ≥ 0 then s.prevTime + (checkBuildings env s ray).1
      else s.currentTime),
     (checkBuildings env s ray).2.1,
     (checkBuildings env s ray).2.2)

/-- Lines 217-224: the new segment replaces the oldest and the shot is
committed to the path. -/
def commit (s : State F) (segmentEndTime : F) (ray : Ray F) : State F :=
  setVelocity
    (setPosition
      { s with segments := (ShotPathSegment.mk s.prevTime segmentEndTime ray :: s.segments).dropLast }
      s.nextPos)
    s.nextVel

/-- Lines 184-224: the motion of a tick once the velocity is chosen. -/
def move (env : Env F) (s : State F) (dt : F) : State F × List (Event F) :=
  let ray : Ray F := ⟨s.nextPos, s.nextVel⟩
  let c := collide env { (puff s).1 with nextPos := ray.getPoint dt } ray
  (commit c.2.1 c.1 ray, (puff s).2 ++ c.2.2)

/-- `update(dt)`. -/
def update (env : Env F) (s : State F) (dt : F) : State F × List (Event F) :=
  if isRemote env s && decide (dt < 0) then (s, [])
  else if !isRemote env s && lifetimeOver (advanceTime s dt) then
    (setExpiring (advanceTime s dt), [Event.explosion s.nextPos])
  else move env (aim env (advanceTime s dt) dt) dt

/-! ## `_predict` (lines 242-349) -/

/-- `_predict(dt, p, v)`: `some (p, v)` when it returns `true`. -/
def _predict (env : Env F) (s : State F) (dt : F) : Option (fvec3 F × fvec3 F) :=
  if !env.worldPresent then none
  else if (env.narrow s.currentTime + dt) - s.path.getStartTime ≥ s.path.getLifetime then none
  else
    let tmpVel := steer env (validTarget (getTarget env s)) s.nextPos s.path.getVelocity s.speed dt
    let ray : Ray F := ⟨s.nextPos, tmpVel⟩
    let p := ray.getPoint dt
    if p.z ≤ 0 then none
    else
      match env.getFirstBuilding ray env.Epsilon (s.currentTime - s.prevTime) with
      | none => some (p, tmpVel)
      | some (building, _) =>
        match env.getShotLinkSrc building with
        | none => none
        | some linkSrc =>
          match env.getShotLinkDst linkSrc s.path.getShotId p tmpVel
              s.path.getTeam s.path.getFlag with
          | none => none
          | some d => some (env.teleportShot linkSrc d.linkDst d.physics p tmpVel)

/-- `predictPosition(dt, p)` -/
def predictPosition (env : Env F) (s : State F) (dt : F) : Option (fvec3 F) :=
  (_predict env s dt).map Prod.fst

/-- `predictVelocity(dt, v)` -/
def predictVelocity (env : Env F) (s : State F) (dt : F) : Option (fvec3 F) :=
  (_predict env s dt).map Prod.snd

/-! ## Network synchronisation (lines 422-456) -/

/-- `nboPackUInt8(buf, v)`: the byte appended to the buffer. -/
def nboPackUInt8 (buf : List Byte) (v : PlayerId) : List Byte := buf ++ [v]

/-- `nboUnpackUInt8(msg, v)`: the byte at the head of the buffer. -/
def nboUnpackUInt8 (msg : List Byte) : Option PlayerId := msg.head?

/-- `sendUpdate(firingInfo)`. -/
def sendUpdate (env : Env F) (s : State F) (firingInfo : FiringInfo F) :
    State F × List (Event F) :=
  if !s.needUpdate then (s, [])
  else
    ({ s with needUpdate := false },
     [Event.sendGMUpdate (nboPackUInt8 (env.pack firingInfo.shot) s.lastTarget)])

/-- `readUpdate(msg)`, with the notifications it issues (none); the result is
`none` when the buffer holds no byte to decode. -/
def readUpdate (s : State F) (msg : List Byte) : Option (State F × List (Event F)) :=
  match nboUnpackUInt8 msg with
  | none => none
  | some b =>
    some ({ s with lastTarget := b, nextPos := s.path.getPosition, nextVel := s.path.getVelocity },
          [])

/-! ## Constructor (lines 35-90) -/

/-- The constructor, applied to the path as fired. -/
def construct (env : Env F) (path : ShotPath F) : State F × List (Event F) :=
  let speed := env.shotSpeed * env.gmAdSpeed
  let dir := env.normalize path.getVelocity
  let vel := fvec3.scale speed dir
  let path1 : ShotPath F :=
    { path with firingInfo :=
        { path.firingInfo with
          lifetime := path.firingInfo.lifetime * env.gmAdLife
          shot := { path.firingInfo.shot with vel := vel } } }
  let currentTime := path1.getStartTime
  let seg : ShotPathSegment F := ⟨currentTime, currentTime, ⟨path1.getPosition, vel⟩⟩
  let firstRay : Ray F := ⟨fvec3.sub path1.getPosition (fvec3.scale env.muzzleFront dir), vel⟩
  let s0 : State F :=
    { path := path1
      currentTime := currentTime
      prevTime := currentTime - env.muzzleFront / speed
      nextPos := path1.getPosition
      nextVel := path1.getVelocity
      speed := speed
      lastTarget := env.NoPlayer
      needUpdate := true
      segments := [seg, seg, seg, seg]
      lastPuff := currentTime
      puffTime := env.gmPuffTime
      renderTimes := 0 }
  let c := checkBuildings env s0 firstRay
  ({ c.2.1 with prevTime := currentTime }, c.2.2)

/-- A run of ticks, each with the collaborators as they stand at that tick. -/
def runUpdates (s : State F) : List (Env F × F) → State F
  | [] => s
  | (env, dt) :: rest => runUpdates (update env s dt).1 rest

/-- Whether `update(dt)` reaches the motion code: the tick is not dropped
(line 108) and the shot's life is not over (line 118). -/
def runsToCompletion (env : Env F) (s : State F) (dt : F) : Bool :=
  !(isRemote env s && decide (dt < 0)) && !(!isRemote env s && lifetimeOver (advanceTime s dt))

/-- The ray `update(dt)` builds at line 184. -/
def stepRay (env : Env F) (s : State F) (dt : F) : Ray F :=
  ⟨s.nextPos, (aim env (advanceTime s dt) dt).nextVel⟩

/-- The segment end time `update(dt)` arrives at (lines 198-215). -/
def stepEnd (env : Env F) (s : State F) (dt : F) : F :=
  (collide env
    { (puff (aim env (advanceTime s dt) dt)).1 with nextPos := (stepRay env s dt).getPoint dt }
    (stepRay env s dt)).1

/-- Whether a notification is a teleport event. -/
def Event.isTeleport : Event F → Bool
  | Event.shotTeleported _ _ _ => true
  | _ => false

/-- Whether a notification is an explosion. -/
def Event.isExplosion : Event F → Bool
  | Event.explosion _ => true
  | _ => false

/-! ## A concrete arena over `ℚ`

Used to evaluate the definitions at concrete inputs.  The arena has a wall
(obstacle `1`) in the plane `x = 10`, and a teleporter entry (obstacle `2`,
face `7`) in the plane `x = -10` whose link leads to face `8`, forty units
further along `x`. -/

/-- Euclidean length over `ℚ`, exact when the squared length is the square of a
rational. -/
def qLength (v : fvec3 ℚ) : ℚ := Rat.sqrt (fvec3.dot v v)

/-- Normalisation over `ℚ`; the zero vector is left as it is. -/
def qNormalize (v : fvec3 ℚ) : fvec3 ℚ :=
  if qLength v = 0 then v else fvec3.scale (1 / qLength v) v

/-- Rational approximation of the sine (fifth-order Taylor polynomial). -/
def qSin (r : ℚ) : ℚ := r - r ^ 3 / 6 + r ^ 5 / 120

/-- Rational approximation of the cosine (fourth-order Taylor polynomial). -/
def qCos (r : ℚ) : ℚ := 1 - r ^ 2 / 2 + r ^ 4 / 24

/-- Rotation about the unit axis `n` (Rodrigues' formula) with the rational
sine and cosine. -/
def qRotate (v : fvec3 ℚ) (radians : ℚ) (n : fvec3 ℚ) : fvec3 ℚ :=
  fvec3.add
    (fvec3.add (fvec3.scale (qCos radians) v) (fvec3.scale (qSin radians) (fvec3.cross n v)))
    (fvec3.scale ((1 - qCos radians) * fvec3.dot n v) n)

/-- Rational approximation of the arcsine (third-order Taylor polynomial). -/
def qAsin (x : ℚ) : ℚ := x + x ^ 3 / 6

/-- Time at which a ray meets the plane `x = c`. -/
def planeTime (c : ℚ) (ray : Ray ℚ) : ℚ := (c - ray.origin.x) / ray.direction.x

/-- Geometry query of the arena: a hit counts when its time lies strictly
between `min` and the horizon `t`. -/
def arenaFirstBuilding (ray : Ray ℚ) (min t : ℚ) : Option (Obstacle × ℚ) :=
  if 0 < ray.direction.x ∧ min < planeTime 10 ray ∧ planeTime 10 ray < t then
    some (1, planeTime 10 ray)
  else if ray.direction.x < 0 ∧ min < planeTime (-10) ray ∧ planeTime (-10) ray < t then
    some (2, planeTime (-10) ray)
  else none

/-- A live player with identifier `2`, standing at `(5, 0, 0)`. -/
def player2 : Player ℚ :=
  { id := 2, pos := ⟨5, 0, 0⟩, muzzleHeight := 1, isStealth := false, isAlive := true }

/-- The arena; the local tank has identifier `1` and no target selected.  The
clock values used in the arena are small dyadic numbers, which single
precision represents exactly, so `narrow` leaves them as they are. -/
def arena : Env ℚ :=
  { length := qLength
    normalize := qNormalize
    rotate := qRotate
    asinf := qAsin
    narrow := fun x => x
    myTankId := 1
    myTarget := none
    lookupPlayer := fun i => if i = 2 then some player2 else none
    NoPlayer := 255
    gmTurnAngle := 1 / 2
    gmAdLife := 1
    shotSpeed := 1
    gmAdSpeed := 1
    muzzleFront := 1
    gmPuffTime := 1 / 4
    worldPresent := true
    Epsilon := 1 / 1000000
    getFirstBuilding := arenaFirstBuilding
    getShotLinkSrc := fun b => if b = 2 then some 7 else none
    getShotLinkDst := fun f _ _ _ _ _ => if f = 7 then some ⟨8, 0, 1, ⟨0, ""⟩⟩ else none
    teleportShot := fun _ _ _ p v => (fvec3.add p ⟨40, 0, 0⟩, v)
    linkSrcShotFailText := fun _ => ""
    unescape_colors := fun t => t
    pack := fun sh => [sh.player, Fin.ofNat sh.id] }

/-- A shot fired by `player` at time `0` from `pos` with velocity `vel`. -/
def shotOf (player : PlayerId) (pos vel : fvec3 ℚ) (lifetime : ℚ) : ShotPath ℚ :=
  { firingInfo := { shot := { player := player, id := 9, pos := pos, vel := vel, team := 1 },
                    flagType := 0, lifetime := lifetime },
    startTime := 0, expiring := false }

/-- A missile of the given speed in flight at time `now`, whose previous tick
began at `before`, with its working position and velocity equal to the
committed ones. -/
def inFlight (path : ShotPath ℚ) (speed before now : ℚ) (lastTarget : PlayerId) : State ℚ :=
  { path := path
    currentTime := now
    prevTime := before
    nextPos := path.getPosition
    nextVel := path.getVelocity
    speed := speed
    lastTarget := lastTarget
    needUpdate := false
    segments :=
      [⟨before, now, ⟨path.getPosition, path.getVelocity⟩⟩,
       ⟨before, before, ⟨path.getPosition, path.getVelocity⟩⟩,
       ⟨before, before, ⟨path.getPosition, path.getVelocity⟩⟩,
       ⟨before, before, ⟨path.getPosition, path.getVelocity⟩⟩]
    lastPuff := now
    puffTime := 1 / 4
    renderTimes := 1 }

/-- A local missile fired along `x` from height `5`, with a lifetime of `5`. -/
def fired : ShotPath ℚ := shotOf 1 ⟨0, 0, 5⟩ ⟨1, 0, 0⟩ 5

/-- The environment with its world, geometry query and link collaborators
replaced by others. -/
def Env.withWorld (env : Env F) (w : Bool) (g : Ray F → F → F → Option (Obstacle × F))
    (ls : Obstacle → Option MeshFace)
    (ld : MeshFace → Nat → fvec3 F → fvec3 F → Nat → Nat → Option LinkDst)
    (tp : MeshFace → MeshFace → LinkPhysics → fvec3 F → fvec3 F → fvec3 F × fvec3 F) : Env F :=
  { env with
    worldPresent := w
    getFirstBuilding := g
    getShotLinkSrc := ls
    getShotLinkDst := ld
    teleportShot := tp }

/-- A remote missile (fired by player `3`) at `(0, 0, 1)` flying along `x`
at unit speed and pursuing player `2`, who stands straight ahead. -/
def pursuing : State ℚ := inFlight (shotOf 3 ⟨0, 0, 1⟩ ⟨1, 0, 0⟩ 20) 1 0 1 2

/-- A remote missile (fired by player `3`) at `(5, -5, 1)` flying along `-x`
at unit speed and pursuing player `2`, who stands at right angles to its
course. -/
def passing : State ℚ := inFlight (shotOf 3 ⟨5, -5, 1⟩ ⟨-1, 0, 0⟩ 20) 1 0 1 2

/-- A local missile half a unit in front of the teleporter entry, whose
previous tick had length `1`. -/
def entering : State ℚ := inFlight (shotOf 1 ⟨-19 / 2, 0, 1⟩ ⟨-1, 0, 0⟩ 20) 1 0 1 255

/-- A local missile fired one unit in front of the wall. -/
def firedAtWall : ShotPath ℚ := shotOf 1 ⟨9, 0, 5⟩ ⟨1, 0, 0⟩ 20

/-- `_predict(dt, p, v)` as a call on the strategy, statement by statement:
at every `return` the state the strategy is left in, the notifications issued
so far, and the result (`some (p, v)` for `true`).  Members are only read
(`currentTime`, `prevTime`, `nextPos`, `speed`, `lastTarget` and the path);
the writes go to the locals `ctime`, `target`, `tmpVel`, `p`, `t`, `v`. -/
def _predictCall (env : Env F) (s : State F) (dt : F) :
    State F × List (Event F) × Option (fvec3 F × fvec3 F) :=
  -- lines 244-247
  if !env.worldPresent then (s, [], none)
  -- lines 252-258
  else if (env.narrow s.currentTime + dt) - s.path.getStartTime ≥ s.path.getLifetime then
    (s, [], none)
  else
    -- lines 260-300
    let target := validTarget (getTarget env s)
    let tmpVel := steer env target s.nextPos s.path.getVelocity s.speed dt
    -- lines 302-310
    let ray : Ray F := ⟨s.nextPos, tmpVel⟩
    let p := ray.getPoint dt
    if p.z ≤ 0 then (s, [], none)
    else
      -- lines 312-333
      match env.getFirstBuilding ray env.Epsilon (s.currentTime - s.prevTime) with
      | none => (s, [], some (p, tmpVel))
      | some (building, _) =>
        match env.getShotLinkSrc building with
        | none => (s, [], none)
        | some linkSrc =>
          match env.getShotLinkDst linkSrc s.path.getShotId p tmpVel
              s.path.getTeam s.path.getFlag with
          | none => (s, [], none)
          -- lines 336-348
          | some d => (s, [], some (env.teleportShot linkSrc d.linkDst d.physics p tmpVel))

/-- `predictPosition(dt, p)` as a call on the strategy (lines 228-232). -/
def predictPositionCall (env : Env F) (s : State F) (dt : F) :
    State F × List (Event F) × Option (fvec3 F) :=
  ((_predictCall env s dt).1, (_predictCall env s dt).2.1,
    (_predictCall env s dt).2.2.map Prod.fst)

/-- `predictVelocity(dt, v)` as a call on the strategy (lines 235-239). -/
def predictVelocityCall (env : Env F) (s : State F) (dt : F) :
    State F × List (Event F) × Option (fvec3 F) :=
  ((_predictCall env s dt).1, (_predictCall env s dt).2.1,
    (_predictCall env s dt).2.2.map Prod.snd)

/-- The environment with another target selected by the local player. -/
def Env.withTarget (env : Env F) (target : Option (Player F)) : Env F :=
  { env with myTarget := target }

/-- Whether a notification is a message shown to the user. -/
def Event.isMessage : Event F → Bool
  | Event.message _ => true
  | _ => false

/-- A player with identifier `2` carrying the stealth flag. -/
def ghost : Player ℚ :=
  { id := 2, pos := ⟨5, 0, 0⟩, muzzleHeight := 1, isStealth := true, isAlive := true }

/-- A local missile with no target recorded and nothing to send. -/
def idle : State ℚ := inFlight (shotOf 1 ⟨0, 0, 5⟩ ⟨1, 0, 0⟩ 20) 1 0 1 255

/-- A local missile at height `1` descending with velocity `(3, 0, -4)`. -/
def diving : State ℚ := inFlight (shotOf 1 ⟨0, 0, 1⟩ ⟨3, 0, -4⟩ 20) 5 0 1 255

/-- The arena with the teleporter link out of order: no destination is
resolved and the entry face carries a failure text. -/
def brokenLink : Env ℚ :=
  { arena with
    getShotLinkDst := fun _ _ _ _ _ _ => none
    linkSrcShotFailText := fun _ => "link closed" }

/-- A local missile, half a time unit old, a fifth of a unit in front of the
teleporter entry and flying towards it at unit speed. -/
def young : State ℚ := inFlight (shotOf 1 ⟨-49 / 5, 0, 1⟩ ⟨-1, 0, 0⟩ 20) 1 0 (1 / 2) 255

/-! ## The Euclidean vector library

The operations `length`, `normalize` and `rotate` of `fvec3` as functions of
the scalar square root, sine and cosine.  Over `ℝ`, with `Real.sqrt`,
`Real.sin` and `Real.cos`, they are the exact operations; the claims made
"in exact real arithmetic" are stated for environments whose vector library
is this one. -/

/-- Modelled from the spec: `fvec3::length` (the vector header is not part of
the sources), the square root of the scalar product of the vector with
itself. -/
def euclidLength (sqrt : F → F) (v : fvec3 F) : F := sqrt (fvec3.dot v v)

/-- Modelled from the spec: `fvec3::normalize` (the vector header is not part
of the sources), the vector divided by its length; a vector of length zero
is left as it is. -/
def euclidNormalize (sqrt : F → F) (v : fvec3 F) : fvec3 F :=
  if euclidLength sqrt v = 0 then v else fvec3.scale (1 / euclidLength sqrt v) v

/-- Modelled from the spec: `v.rotate(radians, n)` (the vector header is not
part of the sources), the rotation of `v` by the angle `radians` about the
unit axis `n`, counter-clockwise seen from the tip of `n`:
`cos θ v + sin θ (n × v) + (1 - cos θ) (n · v) n`. -/
def rodrigues (sin cos : F → F) (v : fvec3 F) (radians : F) (n : fvec3 F) : fvec3 F :=
  fvec3.add
    (fvec3.add (fvec3.scale (cos radians) v) (fvec3.scale (sin radians) (fvec3.cross n v)))
    (fvec3.scale ((1 - cos radians) * fvec3.dot n v) n)

/-- Whether the vector library of an environment over `ℝ` is the Euclidean
one, with `asinf` the arcsine. -/
def Env.IsEuclidean (env : Env ℝ) : Prop :=
  env.length = euclidLength Real.sqrt ∧
  env.normalize = euclidNormalize Real.sqrt ∧
  env.rotate = rodrigues Real.sin Real.cos ∧
  env.asinf = Real.arcsin

/-- An arena without obstacles over any ordered field, with the Euclidean
vector library built from the given square root, sine, cosine and arcsine.
The local tank has identifier `1` and the given target selected; the turn
rate is `2`. -/
def range (sqrt sin cos asin : F → F) (target : Option (Player F)) : Env F :=
  { length := euclidLength sqrt
    normalize := euclidNormalize sqrt
    rotate := rodrigues sin cos
    asinf := asin
    narrow := fun x => x
    myTankId := 1
    myTarget := target
    lookupPlayer := fun _ => none
    NoPlayer := 255
    gmTurnAngle := 2
    gmAdLife := 1
    shotSpeed := 1
    gmAdSpeed := 1
    muzzleFront := 1
    gmPuffTime := 1
    worldPresent := true
    Epsilon := 0
    getFirstBuilding := fun _ _ _ => none
    getShotLinkSrc := fun _ => none
    getShotLinkDst := fun _ _ _ _ _ _ => none
    teleportShot := fun _ _ _ p v => (p, v)
    linkSrcShotFailText := fun _ => ""
    unescape_colors := fun t => t
    pack := fun sh => [sh.player, Fin.ofNat sh.id] }

/-- A local missile over any ordered field, at time `1` of a lifetime of `20`,
at `(0, 0, 1)` with velocity `(1, 0, 0)` and speed `1`, with no target
recorded. -/
def cruising : State F :=
  { path :=
      { firingInfo :=
          { shot := { player := 1, id := 9, pos := ⟨0, 0, 1⟩, vel := ⟨1, 0, 0⟩, team := 1 },
            flagType := 0, lifetime := 20 },
        startTime := 0, expiring := false }
    currentTime := 1
    prevTime := 0
    nextPos := ⟨0, 0, 1⟩
    nextVel := ⟨1, 0, 0⟩
    speed := 1
    lastTarget := 255
    needUpdate := false
    segments :=
      [⟨0, 1, ⟨⟨0, 0, 1⟩, ⟨1, 0, 0⟩⟩⟩, ⟨0, 0, ⟨⟨0, 0, 1⟩, ⟨1, 0, 0⟩⟩⟩,
       ⟨0, 0, ⟨⟨0, 0, 1⟩, ⟨1, 0, 0⟩⟩⟩, ⟨0, 0, ⟨⟨0, 0, 1⟩, ⟨1, 0, 0⟩⟩⟩]
    lastPuff := 1
    puffTime := 1
    renderTimes := 1 }

/-- A live player with identifier `2` over any ordered field, whose muzzle is
at `(3, 4, 1)`. -/
def bystander : Player F :=
  { id := 2, pos := ⟨3, 4, 0⟩, muzzleHeight := 1, isStealth := false, isAlive := true }

/-- The arena whose teleporter turns the velocity of the shot a quarter turn
about the vertical axis. -/
def turningArena : Env ℚ :=
  { arena with teleportShot := fun _ _ _ p v => (fvec3.add p ⟨40, 0, 0⟩, ⟨-v.y, v.x, v.z⟩) }

/-- A local missile fired along `-x` with its muzzle half a unit behind the
teleporter entry, so that the first segment crosses the entry. -/
def firedThroughLink : ShotPath ℚ := shotOf 1 ⟨-21 / 2, 0, 1⟩ ⟨-1, 0, 0⟩ 20

/-- Lines 204-205, `segmentEndTime = prevTime; segmentEndTime += t *
(currentTime - prevTime)`, with the rounding `rd` of the `double` sum made
explicit.  With `rd` the identity this is the end time `collide` computes in
the ground branch. -/
def groundEndTime (rd : F → F) (prevTime currentTime t : F) : F :=
  rd (prevTime + t * (currentTime - prevTime))

/-- The length of a vector along the `x` axis. -/
theorem qLength_x (a : ℚ) : qLength ⟨a, 0, 0⟩ = |a| := by
  simp [qLength, fvec3.dot, Rat.sqrt_eq]

/-- The length of a vector along the `y` axis. -/
theorem qLength_y (a : ℚ) : qLength ⟨0, a, 0⟩ = |a| := by
  simp [qLength, fvec3.dot, Rat.sqrt_eq]

/-- The length of a vector along the `z` axis. -/
theorem qLength_z (a : ℚ) : qLength ⟨0, 0, a⟩ = |a| := by
  simp [qLength, fvec3.dot, Rat.sqrt_eq]

theorem isRemote_eq_true_iff (env : Env F) (s : State F) :
    isRemote env s = true ↔ s.path.getPlayer ≠ env.myTankId := by
  simp [isRemote]

theorem isRemote_eq_false_iff (env : Env F) (s : State F) :
    isRemote env s = false ↔ s.path.getPlayer = env.myTankId := by
  simp [isRemote]

theorem checkBuildings_segments (env : Env F) (s : State F) (ray : Ray F) :
    (checkBuildings env s ray).2.1.segments = s.segments := by
  unfold checkBuildings
  split
  · rfl
  · split
    · rfl
    · split
      · rfl
      · split <;> rfl

theorem noteTarget_segments (env : Env F) (s : State F) :
    (noteTarget env s).segments = s.segments := by
  unfold noteTarget
  split
  · rfl
  · split <;> split <;> rfl

theorem dropInvalid_segments (env : Env F) (t : Option (Player F)) (s : State F) :
    (dropInvalid env t s).segments = s.segments := by
  unfold dropInvalid
  split
  · rfl
  · split <;> rfl

theorem aim_segments (env : Env F) (s : State F) (dt : F) :
    (aim env s dt).segments = s.segments := by
  simp [aim, dropInvalid_segments, noteTarget_segments]

theorem puff_segments (s : State F) : (puff s).1.segments = s.segments := by
  unfold puff
  split <;> rfl

theorem collide_segments (env : Env F) (s : State F) (ray : Ray F) :
    (collide env s ray).2.1.segments = s.segments := by
  unfold collide
  split
  · rfl
  · exact checkBuildings_segments env s ray

theorem update_of_completion (env : Env F) (s : State F) (dt : F)
    (h : runsToCompletion env s dt = true) :
    update env s dt = move env (aim env (advanceTime s dt) dt) dt := by
  unfold runsToCompletion at h
  unfold update
  cases h1 : (isRemote env s && decide (dt < 0)) <;>
    cases h2 : (!isRemote env s && lifetimeOver (advanceTime s dt)) <;> simp_all

theorem checkBuildings_prevTime (env : Env F) (s : State F) (ray : Ray F) :
    (checkBuildings env s ray).2.1.prevTime = s.prevTime := by
  unfold checkBuildings
  split
  · rfl
  · split
    · rfl
    · split
      · rfl
      · split <;> rfl

theorem checkBuildings_currentTime (env : Env F) (s : State F) (ray : Ray F) :
    (checkBuildings env s ray).2.1.currentTime = s.currentTime := by
  unfold checkBuildings
  split
  · rfl
  · split
    · rfl
    · split
      · rfl
      · split <;> rfl

theorem collide_prevTime (env : Env F) (s : State F) (ray : Ray F) :
    (collide env s ray).2.1.prevTime = s.prevTime := by
  unfold collide
  split
  · rfl
  · exact checkBuildings_prevTime env s ray

theorem puff_prevTime (s : State F) : (puff s).1.prevTime = s.prevTime := by
  unfold puff
  split <;> rfl

theorem move_segments (env : Env F) (s : State F) (dt : F) :
    (move env s dt).1.segments =
      (ShotPathSegment.mk s.prevTime
        (collide env { (puff s).1 with nextPos := (Ray.mk s.nextPos s.nextVel).getPoint dt }
          ⟨s.nextPos, s.nextVel⟩).1 ⟨s.nextPos, s.nextVel⟩ :: s.segments).dropLast := by
  simp [move, commit, setVelocity, setPosition, collide_segments, puff_segments,
    collide_prevTime, puff_prevTime]

theorem dropInvalid_frame (env : Env F) (t : Option (Player F)) (s : State F) :
    (dropInvalid env t s).prevTime = s.prevTime ∧
    (dropInvalid env t s).currentTime = s.currentTime ∧
    (dropInvalid env t s).nextPos = s.nextPos ∧
    (dropInvalid env t s).path = s.path ∧
    (dropInvalid env t s).speed = s.speed ∧
    (dropInvalid env t s).lastPuff = s.lastPuff ∧
    (dropInvalid env t s).puffTime = s.puffTime := by
  unfold dropInvalid
  split
  · simp
  · split <;> simp

theorem noteTarget_frame (env : Env F) (s : State F) :
    (noteTarget env s).prevTime = s.prevTime ∧
    (noteTarget env s).currentTime = s.currentTime ∧
    (noteTarget env s).nextPos = s.nextPos ∧
    (noteTarget env s).path = s.path ∧
    (noteTarget env s).speed = s.speed ∧
    (noteTarget env s).lastPuff = s.lastPuff ∧
    (noteTarget env s).puffTime = s.puffTime := by
  unfold noteTarget
  split
  · simp
  · split <;> split <;> simp

theorem aim_prevTime (env : Env F) (s : State F) (dt : F) :
    (aim env s dt).prevTime = s.prevTime := by
  simp [aim, (dropInvalid_frame env _ _).1, (noteTarget_frame env _).1]

theorem aim_currentTime (env : Env F) (s : State F) (dt : F) :
    (aim env s dt).currentTime = s.currentTime := by
  simp [aim, (dropInvalid_frame env _ _).2.1, (noteTarget_frame env _).2.1]

theorem aim_nextPos (env : Env F) (s : State F) (dt : F) :
    (aim env s dt).nextPos = s.nextPos := by
  simp [aim, (dropInvalid_frame env _ _).2.2.1, (noteTarget_frame env _).2.2.1]

theorem aim_nextVel (env : Env F) (s : State F) (dt : F) :
    (aim env s dt).nextVel =
      steer env (validTarget (getTarget env s)) s.nextPos s.path.getVelocity s.speed dt := by
  simp [aim, (dropInvalid_frame env _ _).2.2.1, (noteTarget_frame env _).2.2.1,
    (dropInvalid_frame env _ _).2.2.2.1, (noteTarget_frame env _).2.2.2.1,
    (dropInvalid_frame env _ _).2.2.2.2.1, (noteTarget_frame env _).2.2.2.2.1]

theorem move_prevTime (env : Env F) (s : State F) (dt : F) :
    (move env s dt).1.prevTime = s.prevTime := by
  simp [move, commit, setVelocity, setPosition, collide_prevTime, puff_prevTime]

theorem update_segments_length (env : Env F) (s : State F) (dt : F) :
    (update env s dt).1.segments.length = s.segments.length := by
  unfold update
  split
  · rfl
  · split
    · rfl
    · rw [move_segments]
      simp [aim_segments, advanceTime]

theorem runUpdates_segments_length (ticks : List (Env F × F)) (s : State F) :
    (runUpdates s ticks).segments.length = s.segments.length := by
  induction ticks generalizing s with
  | nil => rfl
  | cons tick rest ih =>
    obtain ⟨env, dt⟩ := tick
    simp only [runUpdates]
    rw [ih, update_segments_length]

theorem construct_segments_length (env : Env F) (path : ShotPath F) :
    (construct env path).1.segments.length = 4 := by
  simp [construct, checkBuildings_segments]

theorem dropLast_cons_of_length_four {α : Type} (a : α) (l : List α) (h : l.length = 4) :
    (a :: l).dropLast = a :: l.take 3 := by
  match l, h with
  | [b, c, d, e], _ => rfl

/-! ## The claims -/

/-- C1: a remote projectile (the shot's player differs from the local tank)
drops a tick with `dt < 0`: `update` returns the state it was given, every
field included, and issues no notification. -/
theorem update_remote_negative_dt (env : Env F) (s : State F) (dt : F)
    (hremote : s.path.getPlayer ≠ env.myTankId) (hdt : dt < 0) :
    update env s dt = (s, []) := by
  have h : isRemote env s = true := (isRemote_eq_true_iff env s).2 hremote
  simp [update, h, hdt]

/-- Witness for C1: a shot of player `2` seen from tank `1`, ticked with
`dt = -1`. -/
theorem update_remote_negative_dt_witness :
    ((inFlight (shotOf 2 ⟨0, 0, 5⟩ ⟨1, 0, 0⟩ 20) 1 1 2 255).path.getPlayer ≠ arena.myTankId ∧
      (-1 : ℚ) < 0) ∧
    update arena (inFlight (shotOf 2 ⟨0, 0, 5⟩ ⟨1, 0, 0⟩ 20) 1 1 2 255) (-1) =
      (inFlight (shotOf 2 ⟨0, 0, 5⟩ ⟨1, 0, 0⟩ 20) 1 1 2 255, []) :=
  ⟨⟨by decide, by norm_num⟩,
   update_remote_negative_dt arena _ (-1) (by decide) (by norm_num)⟩

/-- C2: the history holds four segments after construction and after every
run of `update` calls started there, whatever each tick's `dt` and
collaborators; and a tick that runs to completion from such a state leaves
the segment `{prevTime, segment end time, ray}` it built in front of the
first three segments of the old history. -/
theorem segments_history_invariant (env0 : Env F) (path : ShotPath F)
    (ticks : List (Env F × F)) (env : Env F) (dt : F) :
    (construct env0 path).1.segments.length = 4 ∧
    (runUpdates (construct env0 path).1 ticks).segments.length = 4 ∧
    (runsToCompletion env (runUpdates (construct env0 path).1 ticks) dt = true →
      (update env (runUpdates (construct env0 path).1 ticks) dt).1.prevTime =
          (runUpdates (construct env0 path).1 ticks).currentTime ∧
      (update env (runUpdates (construct env0 path).1 ticks) dt).1.segments =
        ShotPathSegment.mk
            (update env (runUpdates (construct env0 path).1 ticks) dt).1.prevTime
            (stepEnd env (runUpdates (construct env0 path).1 ticks) dt)
            (stepRay env (runUpdates (construct env0 path).1 ticks) dt) ::
          (runUpdates (construct env0 path).1 ticks).segments.take 3) := by
  have h4 : (runUpdates (construct env0 path).1 ticks).segments.length = 4 := by
    rw [runUpdates_segments_length, construct_segments_length]
  refine ⟨construct_segments_length env0 path, h4, ?_⟩
  intro hrun
  have hprev : (update env (runUpdates (construct env0 path).1 ticks) dt).1.prevTime =
      (runUpdates (construct env0 path).1 ticks).currentTime := by
    rw [update_of_completion _ _ _ hrun, move_prevTime, aim_prevTime]
    rfl
  refine ⟨hprev, ?_⟩
  rw [hprev, update_of_completion _ _ _ hrun, move_segments,
    dropLast_cons_of_length_four _ _ (by rw [aim_segments]; exact h4)]
  simp [stepEnd, stepRay, aim_segments, aim_prevTime, aim_nextPos, advanceTime]

/-- C3: for a local shot whose advanced clock reaches the lifetime, `update`
issues one explosion at the old `nextPos`, marks the shot expiring, moves
`prevTime` to the old `currentTime` and `currentTime` on by `dt`, and
changes nothing else; the result does not depend on any collaborator. -/
theorem update_lifetime_expiry (env : Env F) (s : State F) (dt : F)
    (hlocal : s.path.getPlayer = env.myTankId)
    (hlife : (s.currentTime + dt) - s.path.getStartTime ≥ s.path.getLifetime) :
    update env s dt =
      ({ s with
          prevTime := s.currentTime
          currentTime := s.currentTime + dt
          path := { s.path with expiring := true } },
       [Event.explosion s.nextPos]) := by
  have h : isRemote env s = false := (isRemote_eq_false_iff env s).2 hlocal
  have h2 : lifetimeOver (advanceTime s dt) = true := by
    simpa [lifetimeOver, advanceTime] using hlife
  rw [update, if_neg (by simp [h]), if_pos (by simp [h, h2])]
  simp [setExpiring, advanceTime]

/-- Witness for C2: the missile `fired`, constructed in the arena and ticked
twice by half a time unit. -/
theorem segments_history_invariant_witness :
    runsToCompletion arena (runUpdates (construct arena fired).1 [(arena, 1 / 2)]) (1 / 2) = true ∧
    (update arena (runUpdates (construct arena fired).1 [(arena, 1 / 2)]) (1 / 2)).1.segments =
      [⟨1 / 2, 1, ⟨⟨1 / 2, 0, 5⟩, ⟨1, 0, 0⟩⟩⟩,
       ⟨0, 1 / 2, ⟨⟨0, 0, 5⟩, ⟨1, 0, 0⟩⟩⟩,
       ⟨0, 0, ⟨⟨0, 0, 5⟩, ⟨1, 0, 0⟩⟩⟩,
       ⟨0, 0, ⟨⟨0, 0, 5⟩, ⟨1, 0, 0⟩⟩⟩] := by
  have h : runsToCompletion arena (runUpdates (construct arena fired).1 [(arena, 1 / 2)])
      (1 / 2) = true := by
    norm_num [runsToCompletion, runUpdates, update, move, aim, puff, collide, commit, construct,
      arena, fired, shotOf, checkBuildings, qNormalize, qLength_x, fvec3.scale, fvec3.sub,
      fvec3.add, Ray.getPoint, ShotPath.getVelocity, ShotPath.getPosition, ShotPath.getStartTime,
      ShotPath.getLifetime, ShotPath.getPlayer, arenaFirstBuilding, planeTime, isRemote,
      lifetimeOver, advanceTime, setExpiring, setPosition, setVelocity, steer, validTarget,
      getTarget, noteTarget, dropInvalid]
  refine ⟨h, ?_⟩
  rw [((segments_history_invariant arena fired [(arena, 1 / 2)] arena (1 / 2)).2.2 h).2]
  norm_num [runsToCompletion, runUpdates, update, move, aim, puff, collide, commit, construct,
      arena, fired, shotOf, checkBuildings, qNormalize, qLength_x, fvec3.scale, fvec3.sub,
      fvec3.add, Ray.getPoint, ShotPath.getVelocity, ShotPath.getPosition, ShotPath.getStartTime,
      ShotPath.getLifetime, ShotPath.getPlayer, arenaFirstBuilding, planeTime, isRemote,
      lifetimeOver, advanceTime, setExpiring, setPosition, setVelocity, steer, validTarget,
      getTarget, noteTarget, dropInvalid, stepEnd, stepRay]
/-- Witness for C3: the missile `fired` (start time `0`, lifetime `5`) is
ticked four times by one time unit; the fifth tick brings the clock to `5`. -/
theorem update_lifetime_expiry_witness :
    ((runUpdates (construct arena fired).1
        [(arena, 1), (arena, 1), (arena, 1), (arena, 1)]).path.getPlayer = arena.myTankId ∧
     (runUpdates (construct arena fired).1
        [(arena, 1), (arena, 1), (arena, 1), (arena, 1)]).currentTime + 1 = 5) ∧
    (update arena (runUpdates (construct arena fired).1
        [(arena, 1), (arena, 1), (arena, 1), (arena, 1)]) 1).2 = [Event.explosion ⟨4, 0, 5⟩] ∧
    (update arena (runUpdates (construct arena fired).1
        [(arena, 1), (arena, 1), (arena, 1), (arena, 1)]) 1).1.nextPos = ⟨4, 0, 5⟩ ∧
    (update arena (runUpdates (construct arena fired).1
        [(arena, 1), (arena, 1), (arena, 1), (arena, 1)]) 1).1.path.expiring = true := by
  have hs : runUpdates (construct arena fired).1
      [(arena, 1), (arena, 1), (arena, 1), (arena, 1)] =
      { path := shotOf 1 ⟨4, 0, 5⟩ ⟨1, 0, 0⟩ 5
        currentTime := 4
        prevTime := 3
        nextPos := ⟨4, 0, 5⟩
        nextVel := ⟨1, 0, 0⟩
        speed := 1
        lastTarget := 255
        needUpdate := true
        segments :=
          [⟨3, 4, ⟨⟨3, 0, 5⟩, ⟨1, 0, 0⟩⟩⟩, ⟨2, 3, ⟨⟨2, 0, 5⟩, ⟨1, 0, 0⟩⟩⟩,
           ⟨1, 2, ⟨⟨1, 0, 5⟩, ⟨1, 0, 0⟩⟩⟩, ⟨0, 1, ⟨⟨0, 0, 5⟩, ⟨1, 0, 0⟩⟩⟩]
        lastPuff := 4
        puffTime := 1 / 4
        renderTimes := 4 } := by
    norm_num [runUpdates, update, move, aim, puff, collide, commit, construct,
      arena, fired, shotOf, checkBuildings, qNormalize, qLength_x, fvec3.scale, fvec3.sub,
      fvec3.add, Ray.getPoint, ShotPath.getVelocity, ShotPath.getPosition, ShotPath.getStartTime,
      ShotPath.getLifetime, ShotPath.getPlayer, arenaFirstBuilding, planeTime, isRemote,
      lifetimeOver, advanceTime, setExpiring, setPosition, setVelocity, steer, validTarget,
      getTarget, noteTarget, dropInvalid]
  rw [hs]
  have hlocal : (shotOf 1 ⟨4, 0, 5⟩ ⟨1, 0, 0⟩ 5).getPlayer = arena.myTankId := by decide
  refine ⟨⟨hlocal, by norm_num⟩, ?_⟩
  rw [update_lifetime_expiry arena _ 1 hlocal
    (by norm_num [shotOf, ShotPath.getStartTime, ShotPath.getLifetime])]
  exact ⟨rfl, rfl, rfl⟩

theorem puff_fst (s : State F) :
    (puff s).1 =
      { s with
        renderTimes := s.renderTimes + 1
        lastPuff := if s.currentTime - s.lastPuff > s.puffTime then s.currentTime else s.lastPuff } := by
  unfold puff
  split <;> simp_all

theorem stepRay_eq (env : Env F) (s : State F) (dt : F) :
    (Ray.mk (aim env (advanceTime s dt) dt).nextPos (aim env (advanceTime s dt) dt).nextVel) =
      stepRay env s dt := by
  simp [stepRay, aim_nextPos, advanceTime]

theorem move_ground (env : Env F) (a : State F) (dt : F)
    (hground : ((Ray.mk a.nextPos a.nextVel).getPoint dt).z ≤ 0) :
    move env a dt =
      (commit
        { (setExpiring (puff a).1) with
          nextPos := (Ray.mk a.nextPos a.nextVel).getPoint
            (groundT ⟨a.nextPos, a.nextVel⟩ ((Ray.mk a.nextPos a.nextVel).getPoint dt)) }
        (a.prevTime + groundT ⟨a.nextPos, a.nextVel⟩ ((Ray.mk a.nextPos a.nextVel).getPoint dt) *
          (a.currentTime - a.prevTime))
        ⟨a.nextPos, a.nextVel⟩,
       (puff a).2 ++ [Event.explosion ((Ray.mk a.nextPos a.nextVel).getPoint
            (groundT ⟨a.nextPos, a.nextVel⟩ ((Ray.mk a.nextPos a.nextVel).getPoint dt)))]) := by
  unfold move collide
  simp only [hground, if_true]
  simp [puff_fst, setExpiring]

theorem puff_events_no_explosion (s : State F) :
    (puff s).2.filter Event.isExplosion = [] := by
  unfold puff
  split <;> simp [Event.isExplosion]

/-- C4: when the tick reaches the motion code from a position above ground
and the integrated position `ray.getPoint(dt)` is at or below ground, the
shot is marked expiring, the head segment ends at
`prevTime + t * (currentTime - prevTime)` for
`t = origin.z / (origin.z - integrated.z)`, the position kept and committed
is `ray.getPoint(t)`, the one explosion issued is at that point, and the
outcome is the same whatever the world, geometry and link collaborators
are. -/
theorem update_ground_impact (env : Env F) (s : State F) (dt t : F)
    (hrun : runsToCompletion env s dt = true)
    (hlen : s.segments.length = 4)
    (_horigin : 0 < (stepRay env s dt).origin.z)
    (hground : ((stepRay env s dt).getPoint dt).z ≤ 0)
    (ht : t = (stepRay env s dt).origin.z /
      ((stepRay env s dt).origin.z - ((stepRay env s dt).getPoint dt).z)) :
    (update env s dt).1.path.expiring = true ∧
    (update env s dt).1.segments.head? =
      some ⟨(update env s dt).1.prevTime,
        (update env s dt).1.prevTime +
          t * ((update env s dt).1.currentTime - (update env s dt).1.prevTime),
        stepRay env s dt⟩ ∧
    (update env s dt).1.nextPos = (stepRay env s dt).getPoint t ∧
    (update env s dt).1.path.getPosition = (stepRay env s dt).getPoint t ∧
    (update env s dt).2.filter Event.isExplosion =
      [Event.explosion ((stepRay env s dt).getPoint t)] ∧
    (∀ (w : Bool) (g : Ray F → F → F → Option (Obstacle × F)) (ls : Obstacle → Option MeshFace)
        (ld : MeshFace → Nat → fvec3 F → fvec3 F → Nat → Nat → Option LinkDst)
        (tp : MeshFace → MeshFace → LinkPhysics → fvec3 F → fvec3 F → fvec3 F × fvec3 F),
      update (env.withWorld w g ls ld tp) s dt = update env s dt) := by
  have hg : ((Ray.mk (aim env (advanceTime s dt) dt).nextPos
      (aim env (advanceTime s dt) dt).nextVel).getPoint dt).z ≤ 0 := by
    rw [stepRay_eq]; exact hground
  have ht2 : groundT (stepRay env s dt) ((stepRay env s dt).getPoint dt) = t := by
    rw [ht]; rfl
  have hu : update env s dt = _ :=
    (update_of_completion env s dt hrun).trans (move_ground env _ dt hg)
  rw [stepRay_eq, ht2] at hu
  refine ⟨?_, ?_, ?_, ?_, ?_, ?_⟩
  · rw [hu]; simp [commit, setPosition, setVelocity, setExpiring]
  · rw [hu]
    simp only [commit, setPosition, setVelocity, setExpiring]
    rw [dropLast_cons_of_length_four _ _ (by simp [puff_fst, aim_segments, advanceTime, hlen])]
    simp [puff_fst, aim_prevTime, aim_currentTime, advanceTime]
  · rw [hu]; simp [commit, setPosition, setVelocity, setExpiring]
  · rw [hu]; simp [commit, setPosition, setVelocity, setExpiring, ShotPath.getPosition]
  · rw [hu]; simp [puff_events_no_explosion, Event.isExplosion]
  · intro w g ls ld tp
    have haim : aim (env.withWorld w g ls ld tp) (advanceTime s dt) dt =
        aim env (advanceTime s dt) dt := rfl
    have hrun2 : runsToCompletion (env.withWorld w g ls ld tp) s dt = true := hrun
    rw [update_of_completion _ s dt hrun2, haim, move_ground _ _ dt hg,
      ← move_ground env _ dt hg, ← update_of_completion env s dt hrun]

/-- Witness for C4: a local missile at height `2` descending with velocity
`(3, 0, -4)`, ticked with `dt = 1`: the impact parameter is `1 / 2` and the
impact point is the ray's point at `1 / 2`, which is `(3/2, 0, 0)`. -/
theorem update_ground_impact_witness :
    (runsToCompletion arena (inFlight (shotOf 1 ⟨0, 0, 2⟩ ⟨3, 0, -4⟩ 20) 5 0 1 255) 1 = true ∧
      (0 : ℚ) < 2 ∧ (-2 : ℚ) ≤ 0 ∧ (1 / 2 : ℚ) = 2 / (2 - (-2))) ∧
    stepRay arena (inFlight (shotOf 1 ⟨0, 0, 2⟩ ⟨3, 0, -4⟩ 20) 5 0 1 255) 1 =
      ⟨⟨0, 0, 2⟩, ⟨3, 0, -4⟩⟩ ∧
    (update arena (inFlight (shotOf 1 ⟨0, 0, 2⟩ ⟨3, 0, -4⟩ 20) 5 0 1 255) 1).1.nextPos =
      (Ray.mk ⟨0, 0, 2⟩ ⟨3, 0, -4⟩).getPoint (1 / 2) ∧
    (Ray.mk (⟨0, 0, 2⟩ : fvec3 ℚ) ⟨3, 0, -4⟩).getPoint (1 / 2) = ⟨3 / 2, 0, 0⟩ ∧
    (update arena (inFlight (shotOf 1 ⟨0, 0, 2⟩ ⟨3, 0, -4⟩ 20) 5 0 1 255) 1).2.filter
        Event.isExplosion = [Event.explosion ⟨3 / 2, 0, 0⟩] ∧
    (update arena (inFlight (shotOf 1 ⟨0, 0, 2⟩ ⟨3, 0, -4⟩ 20) 5 0 1 255) 1).1.segments.head? =
      some ⟨1, 3 / 2, ⟨⟨0, 0, 2⟩, ⟨3, 0, -4⟩⟩⟩ ∧
    (update arena (inFlight (shotOf 1 ⟨0, 0, 2⟩ ⟨3, 0, -4⟩ 20) 5 0 1 255) 1).1.path.expiring =
      true := by
  have hrun : runsToCompletion arena (inFlight (shotOf 1 ⟨0, 0, 2⟩ ⟨3, 0, -4⟩ 20) 5 0 1 255) 1 =
      true := by
    norm_num [runsToCompletion, isRemote, lifetimeOver, advanceTime, inFlight, shotOf, arena,
      ShotPath.getPlayer, ShotPath.getStartTime, ShotPath.getLifetime]
  have hray : stepRay arena (inFlight (shotOf 1 ⟨0, 0, 2⟩ ⟨3, 0, -4⟩ 20) 5 0 1 255) 1 =
      ⟨⟨0, 0, 2⟩, ⟨3, 0, -4⟩⟩ := by
    norm_num [stepRay, aim, steer, validTarget, getTarget, noteTarget, dropInvalid, isRemote,
      advanceTime, inFlight, shotOf, arena, ShotPath.getPlayer, ShotPath.getVelocity,
      ShotPath.getPosition]
  have hpt : (Ray.mk (⟨0, 0, 2⟩ : fvec3 ℚ) ⟨3, 0, -4⟩).getPoint (1 / 2) = ⟨3 / 2, 0, 0⟩ := by
    norm_num [Ray.getPoint, fvec3.add, fvec3.scale]
  have h := update_ground_impact arena (inFlight (shotOf 1 ⟨0, 0, 2⟩ ⟨3, 0, -4⟩ 20) 5 0 1 255)
    1 (1 / 2) hrun rfl
    (by rw [hray]; norm_num)
    (by rw [hray]; norm_num [Ray.getPoint, fvec3.add, fvec3.scale])
    (by rw [hray]; norm_num [Ray.getPoint, fvec3.add, fvec3.scale])
  rw [hray] at h
  obtain ⟨h1, h2, h3, -, h5, -⟩ := h
  refine ⟨⟨hrun, by norm_num, by norm_num, by norm_num⟩, hray, h3, hpt, ?_, ?_, h1⟩
  · rw [h5, hpt]
  · rw [h2]
    norm_num [update, move, aim, puff, collide, commit, isRemote, lifetimeOver, advanceTime,
      inFlight, shotOf, arena, ShotPath.getPlayer, ShotPath.getStartTime, ShotPath.getLifetime,
      ShotPath.getVelocity, ShotPath.getPosition, setExpiring, setPosition, setVelocity, steer,
      validTarget, getTarget, noteTarget, dropInvalid, Ray.getPoint, fvec3.add, fvec3.scale,
      groundT]

theorem cross_self (d : fvec3 F) : fvec3.cross d d = fvec3.zero := by
  simp [fvec3.cross, fvec3.zero, mul_comm]

theorem steer_of_parallel (env : Env F) (tg : Player F) (nextPos vel : fvec3 F) (speed dt : F)
    (hlen0 : env.length fvec3.zero = 0)
    (hahead : desiredDir env tg nextPos = env.normalize vel) :
    steer env (some tg) nextPos vel speed dt = vel := by
  simp [steer, hahead, cross_self, hlen0]

theorem checkBuildings_nextVel_of_no_teleport (env : Env F) (s : State F) (ray : Ray F)
    (h : ∀ e ∈ (checkBuildings env s ray).2.2, Event.isTeleport e = false) :
    (checkBuildings env s ray).2.1.nextVel = s.nextVel := by
  cases hw : env.worldPresent with
  | false => simp [checkBuildings, hw]
  | true =>
    cases hb : env.getFirstBuilding ray env.Epsilon (s.currentTime - s.prevTime) with
    | none => simp [checkBuildings, hw, hb]
    | some bt =>
      obtain ⟨b, t⟩ := bt
      cases hl : env.getShotLinkSrc b with
      | none => simp [checkBuildings, hw, hb, hl, setExpiring]
      | some linkSrc =>
        cases hd : env.getShotLinkDst linkSrc s.path.getShotId s.nextPos s.nextVel
            s.path.getTeam s.path.getFlag with
        | none => simp [checkBuildings, hw, hb, hl, hd, setExpiring]
        | some d =>
          exfalso
          have := h (Event.shotTeleported s.path.getShotId d.linkSrcID d.linkDstID)
            (by simp [checkBuildings, hw, hb, hl, hd])
          simp [Event.isTeleport] at this

theorem collide_nextVel_of_no_teleport (env : Env F) (s : State F) (ray : Ray F)
    (h : ∀ e ∈ (collide env s ray).2.2, Event.isTeleport e = false) :
    (collide env s ray).2.1.nextVel = s.nextVel := by
  unfold collide at h ⊢
  split
  · rfl
  · rename_i hz
    simp only [hz, if_false] at h
    exact checkBuildings_nextVel_of_no_teleport env s ray h

theorem move_nextVel_of_no_teleport (env : Env F) (a : State F) (dt : F)
    (h : ∀ e ∈ (move env a dt).2, Event.isTeleport e = false) :
    (move env a dt).1.nextVel = a.nextVel := by
  have hc : ∀ e ∈ (collide env
      { (puff a).1 with nextPos := (Ray.mk a.nextPos a.nextVel).getPoint dt }
      ⟨a.nextPos, a.nextVel⟩).2.2, Event.isTeleport e = false := by
    intro e he
    exact h e (by simp [move, he])
  have hv := collide_nextVel_of_no_teleport env _ _ hc
  show (collide env _ _).2.1.nextVel = a.nextVel
  rw [hv]
  show (puff a).1.nextVel = a.nextVel
  simp [puff_fst]

theorem move_path_velocity (env : Env F) (a : State F) (dt : F) :
    (move env a dt).1.path.getVelocity = (move env a dt).1.nextVel := by
  simp [move, commit, setVelocity, setPosition, ShotPath.getVelocity]

theorem getTarget_advanceTime (env : Env F) (s : State F) (dt : F) :
    getTarget env (advanceTime s dt) = getTarget env s := rfl

theorem update_path_of_early_return (env : Env F) (s : State F) (dt : F)
    (h : runsToCompletion env s dt = false) :
    (update env s dt).1.path.firingInfo = s.path.firingInfo := by
  unfold runsToCompletion at h
  unfold update
  cases h1 : (isRemote env s && decide (dt < 0)) <;>
    cases h2 : (!isRemote env s && lifetimeOver (advanceTime s dt)) <;>
    simp_all [setExpiring, advanceTime]

theorem update_of_unsteered (env : Env F) (s : State F) (dt : F)
    (hsteer : steer env (validTarget (getTarget env s)) s.nextPos s.path.getVelocity
      s.speed dt = s.path.getVelocity) :
    (runsToCompletion env s dt = true →
      (stepRay env s dt).direction = s.path.getVelocity ∧
      ((∀ e ∈ (update env s dt).2, Event.isTeleport e = false) →
        (update env s dt).1.nextVel = s.path.getVelocity)) ∧
    ((∀ e ∈ (update env s dt).2, Event.isTeleport e = false) →
      (update env s dt).1.path.getVelocity = s.path.getVelocity) := by
  have haim : (aim env (advanceTime s dt) dt).nextVel = s.path.getVelocity := by
    rw [aim_nextVel, getTarget_advanceTime]
    exact hsteer
  have hdone : runsToCompletion env s dt = true →
      (∀ e ∈ (update env s dt).2, Event.isTeleport e = false) →
      (update env s dt).1.nextVel = s.path.getVelocity := by
    intro hrun hno
    rw [update_of_completion env s dt hrun] at hno ⊢
    rw [move_nextVel_of_no_teleport env _ dt hno, haim]
  refine ⟨fun hrun => ⟨haim, hdone hrun⟩, ?_⟩
  intro hno
  cases hrun : runsToCompletion env s dt with
  | true =>
    rw [← hdone hrun hno, update_of_completion env s dt hrun, move_path_velocity]
  | false =>
    simp [ShotPath.getVelocity, update_path_of_early_return env s dt hrun]

/-- C5: when the valid target lies exactly ahead (the unit direction from
`nextPos` to the target raised by its muzzle height is the unit direction of
the path velocity), no steering is applied, for every `dt` and turn rate: the
steered velocity is the path velocity; a tick that runs to completion builds
its ray with it and, absent a teleport, keeps it as `nextVel`; and absent a
teleport the committed path velocity is the one before the call.  The vector
library is assumed to give the zero vector length zero. -/
theorem update_target_ahead_no_steering (env : Env F) (s : State F) (dt : F) (tg : Player F)
    (hlen0 : env.length fvec3.zero = 0)
    (htarget : validTarget (getTarget env s) = some tg)
    (hahead : desiredDir env tg s.nextPos = env.normalize s.path.getVelocity) :
    steer env (validTarget (getTarget env s)) s.nextPos s.path.getVelocity s.speed dt =
      s.path.getVelocity ∧
    (runsToCompletion env s dt = true →
      (stepRay env s dt).direction = s.path.getVelocity ∧
      ((∀ e ∈ (update env s dt).2, Event.isTeleport e = false) →
        (update env s dt).1.nextVel = s.path.getVelocity)) ∧
    ((∀ e ∈ (update env s dt).2, Event.isTeleport e = false) →
      (update env s dt).1.path.getVelocity = s.path.getVelocity) := by
  have hsteer : steer env (validTarget (getTarget env s)) s.nextPos s.path.getVelocity
      s.speed dt = s.path.getVelocity := by
    rw [htarget]
    exact steer_of_parallel env tg _ _ _ _ hlen0 hahead
  exact ⟨hsteer, update_of_unsteered env s dt hsteer⟩

/-- Witness for C5: the missile `pursuing` has player `2` straight ahead; a
tick of half a time unit keeps the velocity `(1, 0, 0)`. -/
theorem update_target_ahead_no_steering_witness :
    (arena.length fvec3.zero = 0 ∧
      validTarget (getTarget arena pursuing) = some player2 ∧
      desiredDir arena player2 pursuing.nextPos = arena.normalize pursuing.path.getVelocity) ∧
    steer arena (validTarget (getTarget arena pursuing)) pursuing.nextPos
      pursuing.path.getVelocity pursuing.speed (1 / 2) = ⟨1, 0, 0⟩ ∧
    (update arena pursuing (1 / 2)).1.nextVel = ⟨1, 0, 0⟩ := by
  have h0 : arena.length fvec3.zero = 0 := by
    simp [arena, fvec3.zero, qLength_x]
  have h1 : validTarget (getTarget arena pursuing) = some player2 := by
    simp [validTarget, getTarget, isRemote, arena, pursuing, inFlight, shotOf,
      ShotPath.getPlayer, player2]
  have h2 : desiredDir arena player2 pursuing.nextPos =
      arena.normalize pursuing.path.getVelocity := by
    norm_num [desiredDir, arena, player2, pursuing, inFlight, shotOf, ShotPath.getPosition,
      ShotPath.getVelocity, fvec3.sub, fvec3.scale, qNormalize, qLength_x]
  have hne : (3 : PlayerId) ≠ 1 := by decide
  have hrun : runsToCompletion arena pursuing (1 / 2) = true := by
    norm_num [runsToCompletion, isRemote, arena, pursuing, inFlight, shotOf, ShotPath.getPlayer,
      hne]
  have hv : pursuing.path.getVelocity = ⟨1, 0, 0⟩ := rfl
  have h := update_target_ahead_no_steering arena pursuing (1 / 2) player2 h0 h1 h2
  refine ⟨⟨h0, h1, h2⟩, h.1.trans hv, ?_⟩
  rw [← hv]
  refine (h.2.1 hrun).2 ?_
  norm_num [update, move, aim, puff, collide, commit, isRemote, lifetimeOver, advanceTime,
    pursuing, inFlight, shotOf, arena, ShotPath.getPlayer, ShotPath.getStartTime,
    ShotPath.getLifetime, ShotPath.getVelocity, ShotPath.getPosition, ShotPath.getShotId,
    ShotPath.getTeam, ShotPath.getFlag, setExpiring, setPosition, setVelocity, steer,
    validTarget, getTarget, noteTarget, dropInvalid, desiredDir, player2, Ray.getPoint,
    fvec3.add, fvec3.sub, fvec3.scale, fvec3.cross, qNormalize, qLength_x, checkBuildings,
    arenaFirstBuilding, planeTime, Event.isTeleport, hne,
    (by decide : (2 : PlayerId) ≠ 255)]

/-- C7: `sendUpdate` transmits a GM-update packet exactly when `needUpdate`
was set on entry; the packet is the packed shot followed by `lastTarget` as
its last byte; on return `needUpdate` is clear and every other field is as
before, whatever becomes of the packet; and two calls in a row transmit at
most one packet between them. -/
theorem sendUpdate_clears_needUpdate (env : Env F) (s : State F)
    (firingInfo again : FiringInfo F) :
    (sendUpdate env s firingInfo).2 =
      (if s.needUpdate then [Event.sendGMUpdate (env.pack firingInfo.shot ++ [s.lastTarget])]
       else []) ∧
    ((∃ packet, Event.sendGMUpdate packet ∈ (sendUpdate env s firingInfo).2) ↔
      s.needUpdate = true) ∧
    (∀ packet, Event.sendGMUpdate packet ∈ (sendUpdate env s firingInfo).2 →
      packet.getLast? = some s.lastTarget) ∧
    (sendUpdate env s firingInfo).1 = { s with needUpdate := false } ∧
    (sendUpdate env (sendUpdate env s firingInfo).1 again).2 = [] ∧
    ((sendUpdate env s firingInfo).2 ++
      (sendUpdate env (sendUpdate env s firingInfo).1 again).2).length ≤ 1 := by
  obtain ⟨path, currentTime, prevTime, nextPos, nextVel, speed, lastTarget, needUpdate,
    segments, lastPuff, puffTime, renderTimes⟩ := s
  cases needUpdate <;> simp [sendUpdate, nboPackUInt8]

/-- C8: `readUpdate` stores the byte decoded from the message in `lastTarget`,
resets `nextPos` and `nextVel` to the position and velocity committed on the
path, changes no other field, and issues no notification. -/
theorem readUpdate_resets_kinematics (s : State F) (b : Byte) (rest : List Byte) :
    nboUnpackUInt8 (b :: rest) = some b ∧
    readUpdate s (b :: rest) =
      some ({ s with
              lastTarget := b
              nextPos := s.path.getPosition
              nextVel := s.path.getVelocity }, []) := by
  simp [readUpdate, nboUnpackUInt8]

theorem checkBuildings_miss (env : Env F) (s : State F) (ray : Ray F)
    (hw : env.worldPresent = true)
    (hb : env.getFirstBuilding ray env.Epsilon (s.currentTime - s.prevTime) = none) :
    checkBuildings env s ray = (-1, s, []) := by
  simp [checkBuildings, hw, hb]

theorem checkBuildings_plain (env : Env F) (s : State F) (ray : Ray F) (b : Obstacle) (t : F)
    (hw : env.worldPresent = true)
    (hb : env.getFirstBuilding ray env.Epsilon (s.currentTime - s.prevTime) = some (b, t))
    (hl : env.getShotLinkSrc b = none) :
    checkBuildings env s ray = (t, setExpiring s, [Event.explosion (ray.getPoint t)]) := by
  simp [checkBuildings, hw, hb, hl]

theorem checkBuildings_unlinked (env : Env F) (s : State F) (ray : Ray F) (b : Obstacle)
    (t : F) (linkSrc : MeshFace)
    (hw : env.worldPresent = true)
    (hb : env.getFirstBuilding ray env.Epsilon (s.currentTime - s.prevTime) = some (b, t))
    (hl : env.getShotLinkSrc b = some linkSrc)
    (hd : env.getShotLinkDst linkSrc s.path.getShotId s.nextPos s.nextVel
      s.path.getTeam s.path.getFlag = none) :
    checkBuildings env s ray =
      (t, setExpiring s, failMessages env s linkSrc t ++ [Event.explosion (ray.getPoint t)]) := by
  simp [checkBuildings, hw, hb, hl, hd]

theorem checkBuildings_teleport (env : Env F) (s : State F) (ray : Ray F) (b : Obstacle)
    (t : F) (linkSrc : MeshFace) (d : LinkDst)
    (hw : env.worldPresent = true)
    (hb : env.getFirstBuilding ray env.Epsilon (s.currentTime - s.prevTime) = some (b, t))
    (hl : env.getShotLinkSrc b = some linkSrc)
    (hd : env.getShotLinkDst linkSrc s.path.getShotId s.nextPos s.nextVel
      s.path.getTeam s.path.getFlag = some d) :
    checkBuildings env s ray =
      (t,
       { s with
         nextPos := (env.teleportShot linkSrc d.linkDst d.physics s.nextPos s.nextVel).1
         nextVel := (env.teleportShot linkSrc d.linkDst d.physics s.nextPos s.nextVel).2 },
       passMessages env d.physics ++
         [Event.shotTeleported s.path.getShotId d.linkSrcID d.linkDstID]) := by
  simp [checkBuildings, hw, hb, hl, hd]

theorem stepRay_eq_steer (env : Env F) (s : State F) (dt : F) :
    stepRay env s dt =
      ⟨s.nextPos,
        steer env (validTarget (getTarget env s)) s.nextPos s.path.getVelocity s.speed dt⟩ := by
  unfold stepRay
  rw [aim_nextVel, getTarget_advanceTime]
  rfl

/-- C10, evaluated at a failing input: the missile `firedAtWall`, just
constructed (so `prevTime = currentTime`), one unit in front of the wall.
With a world present, within its lifetime and with the predicted position
above ground, the step of length `dt = 2` meets the wall, a plain obstacle,
at time `1`; `_predict(2)` nevertheless returns `true`, with a position
behind the wall, because it queries the geometry over the horizon
`currentTime - prevTime = 0`; `update(2)` from the same state expires the
shot. -/
theorem predict_ignores_wall_within_dt :
    (construct arena firedAtWall).1.currentTime - (construct arena firedAtWall).1.prevTime = 0 ∧
    arena.worldPresent = true ∧
    ((construct arena firedAtWall).1.currentTime + 2) -
        (construct arena firedAtWall).1.path.getStartTime <
      (construct arena firedAtWall).1.path.getLifetime ∧
    0 < ((stepRay arena (construct arena firedAtWall).1 2).getPoint 2).z ∧
    arena.getFirstBuilding (stepRay arena (construct arena firedAtWall).1 2) arena.Epsilon 2 =
      some (1, 1) ∧
    arena.getShotLinkSrc 1 = none ∧
    _predict arena (construct arena firedAtWall).1 2 = some (⟨11, 0, 5⟩, ⟨1, 0, 0⟩) ∧
    (update arena (construct arena firedAtWall).1 2).1.path.expiring = true := by
  have hs : (construct arena firedAtWall).1 =
      { path := shotOf 1 ⟨9, 0, 5⟩ ⟨1, 0, 0⟩ 20
        currentTime := 0
        prevTime := 0
        nextPos := ⟨9, 0, 5⟩
        nextVel := ⟨1, 0, 0⟩
        speed := 1
        lastTarget := 255
        needUpdate := true
        segments :=
          [⟨0, 0, ⟨⟨9, 0, 5⟩, ⟨1, 0, 0⟩⟩⟩, ⟨0, 0, ⟨⟨9, 0, 5⟩, ⟨1, 0, 0⟩⟩⟩,
           ⟨0, 0, ⟨⟨9, 0, 5⟩, ⟨1, 0, 0⟩⟩⟩, ⟨0, 0, ⟨⟨9, 0, 5⟩, ⟨1, 0, 0⟩⟩⟩]
        lastPuff := 0
        puffTime := 1 / 4
        renderTimes := 0 } := by
    norm_num [construct, arena, firedAtWall, shotOf, checkBuildings, qNormalize, qLength_x,
      fvec3.scale, fvec3.sub, ShotPath.getVelocity, ShotPath.getPosition, ShotPath.getStartTime,
      arenaFirstBuilding, planeTime]
  rw [hs]
  have hray : stepRay arena
      { path := shotOf 1 ⟨9, 0, 5⟩ ⟨1, 0, 0⟩ 20
        currentTime := 0
        prevTime := 0
        nextPos := ⟨9, 0, 5⟩
        nextVel := ⟨1, 0, 0⟩
        speed := 1
        lastTarget := 255
        needUpdate := true
        segments :=
          [⟨0, 0, ⟨⟨9, 0, 5⟩, ⟨1, 0, 0⟩⟩⟩, ⟨0, 0, ⟨⟨9, 0, 5⟩, ⟨1, 0, 0⟩⟩⟩,
           ⟨0, 0, ⟨⟨9, 0, 5⟩, ⟨1, 0, 0⟩⟩⟩, ⟨0, 0, ⟨⟨9, 0, 5⟩, ⟨1, 0, 0⟩⟩⟩]
        lastPuff := 0
        puffTime := 1 / 4
        renderTimes := 0 } 2 = ⟨⟨9, 0, 5⟩, ⟨1, 0, 0⟩⟩ := by
    norm_num [stepRay, aim, steer, validTarget, getTarget, noteTarget, dropInvalid, isRemote,
      advanceTime, shotOf, arena, ShotPath.getPlayer, ShotPath.getVelocity,
      ShotPath.getPosition]
  rw [hray]
  refine ⟨by norm_num, rfl, ?_, ?_, ?_, rfl, ?_, ?_⟩
  · norm_num [shotOf, ShotPath.getStartTime, ShotPath.getLifetime]
  · norm_num [Ray.getPoint, fvec3.add, fvec3.scale]
  · norm_num [arena, arenaFirstBuilding, planeTime]
  · norm_num [_predict, arena, shotOf, ShotPath.getStartTime,
      ShotPath.getLifetime, ShotPath.getPlayer, ShotPath.getVelocity, ShotPath.getPosition,
      steer, validTarget, getTarget, isRemote, Ray.getPoint, fvec3.add, fvec3.scale,
      arenaFirstBuilding, planeTime]
  · norm_num [update, move, aim, puff, collide, commit, isRemote, lifetimeOver, advanceTime,
      shotOf, arena, ShotPath.getPlayer, ShotPath.getStartTime,
      ShotPath.getLifetime, ShotPath.getVelocity, ShotPath.getPosition, ShotPath.getShotId,
      ShotPath.getTeam, ShotPath.getFlag, setExpiring, setPosition, setVelocity, steer,
      validTarget, getTarget, noteTarget, dropInvalid, Ray.getPoint,
      fvec3.add, fvec3.scale, checkBuildings, arenaFirstBuilding, planeTime]

theorem collide_currentTime (env : Env F) (s : State F) (ray : Ray F) :
    (collide env s ray).2.1.currentTime = s.currentTime := by
  unfold collide
  split
  · rfl
  · exact checkBuildings_currentTime env s ray

theorem move_currentTime (env : Env F) (s : State F) (dt : F) :
    (move env s dt).1.currentTime = s.currentTime := by
  simp [move, commit, setVelocity, setPosition, collide_currentTime, puff_fst]

theorem update_local_times (env : Env F) (s : State F) (dt : F)
    (hlocal : s.path.getPlayer = env.myTankId) :
    (update env s dt).1.currentTime = s.currentTime + dt ∧
    (update env s dt).1.prevTime = s.currentTime := by
  have h : isRemote env s = false := (isRemote_eq_false_iff env s).2 hlocal
  unfold update
  rw [if_neg (by simp [h])]
  split
  · simp [setExpiring, advanceTime]
  · rw [move_currentTime, move_prevTime, aim_currentTime, aim_prevTime]
    simp [advanceTime]

/-- C15 (as amended): for a local shot and `dt ≥ 0`, `update` leaves
`currentTime` at the old `currentTime + dt`, which is at least the old
`currentTime`, and `prevTime` at the old `currentTime`, which is at most the
new `currentTime`. -/
theorem update_local_time_monotone (env : Env F) (s : State F) (dt : F)
    (hlocal : s.path.getPlayer = env.myTankId) (hdt : 0 ≤ dt) :
    (update env s dt).1.currentTime = s.currentTime + dt ∧
    s.currentTime ≤ (update env s dt).1.currentTime ∧
    (update env s dt).1.prevTime ≤ (update env s dt).1.currentTime := by
  obtain ⟨hc, hp⟩ := update_local_times env s dt hlocal
  rw [hc, hp]
  exact ⟨rfl, le_add_of_nonneg_right hdt, le_add_of_nonneg_right hdt⟩

/-- Counterexample to C15 as stated: the local missile `idle`, at time `1`,
ticked with `dt = -1`; the clock goes back to `0`, below both its old value
and the new `prevTime`. -/
theorem update_local_time_monotone_counterexample :
    idle.path.getPlayer = arena.myTankId ∧
    idle.currentTime = 1 ∧
    (update arena idle (-1)).1.currentTime = 0 ∧
    (update arena idle (-1)).1.prevTime = 1 ∧
    ¬ idle.currentTime ≤ (update arena idle (-1)).1.currentTime ∧
    ¬ (update arena idle (-1)).1.prevTime ≤ (update arena idle (-1)).1.currentTime := by
  have hlocal : idle.path.getPlayer = arena.myTankId := by decide
  obtain ⟨hc, hp⟩ := update_local_times arena idle (-1) hlocal
  have h1 : idle.currentTime = 1 := rfl
  rw [hc, hp, h1]
  refine ⟨hlocal, rfl, by norm_num, rfl, by norm_num, by norm_num⟩

/-- Witness for C15 as amended: the local missile `idle`, at time `1`, ticked
with `dt = 1 / 2`. -/
theorem update_local_time_monotone_witness :
    (idle.path.getPlayer = arena.myTankId ∧ (0 : ℚ) ≤ 1 / 2) ∧
    (update arena idle (1 / 2)).1.currentTime = 3 / 2 ∧
    idle.currentTime ≤ (update arena idle (1 / 2)).1.currentTime ∧
    (update arena idle (1 / 2)).1.prevTime ≤ (update arena idle (1 / 2)).1.currentTime := by
  have hlocal : idle.path.getPlayer = arena.myTankId := by decide
  have h := update_local_time_monotone arena idle (1 / 2) hlocal (by norm_num)
  refine ⟨⟨hlocal, by norm_num⟩, ?_, h.2.1, h.2.2⟩
  rw [h.1]
  norm_num [idle, inFlight]

/-- C19, evaluated at a failing input: the local missile `diving`, at height
`1` with velocity `(3, 0, -4)`, ticked with `dt = 1 / 2`.  The ray meets the
ground at time `1 / 4`, at `(3/4, 0, 0)`; the integrated position is
`(3/2, 0, -1)`, the fraction of line 203 is `1 / 2`, and `update` keeps,
commits and reports the explosion at `ray.getPoint(1 / 2) = (3/2, 0, -1)`,
one unit below ground. -/
theorem ground_impact_below_ground :
    runsToCompletion arena diving (1 / 2) = true ∧
    (0 : ℚ) < 1 / 2 ∧
    stepRay arena diving (1 / 2) = ⟨⟨0, 0, 1⟩, ⟨3, 0, -4⟩⟩ ∧
    0 < (stepRay arena diving (1 / 2)).origin.z ∧
    ((stepRay arena diving (1 / 2)).getPoint (1 / 2)).z ≤ 0 ∧
    (stepRay arena diving (1 / 2)).getPoint (1 / 4) = ⟨3 / 4, 0, 0⟩ ∧
    (update arena diving (1 / 2)).1.path.expiring = true ∧
    (update arena diving (1 / 2)).1.nextPos = ⟨3 / 2, 0, -1⟩ ∧
    (update arena diving (1 / 2)).1.path.getPosition = ⟨3 / 2, 0, -1⟩ ∧
    (update arena diving (1 / 2)).2.filter Event.isExplosion =
      [Event.explosion ⟨3 / 2, 0, -1⟩] ∧
    (update arena diving (1 / 2)).1.nextPos.z ≠ 0 := by
  have hrun : runsToCompletion arena diving (1 / 2) = true := by
    norm_num [runsToCompletion, isRemote, lifetimeOver, advanceTime, diving, inFlight, shotOf,
      arena, ShotPath.getPlayer, ShotPath.getStartTime, ShotPath.getLifetime]
  have hray : stepRay arena diving (1 / 2) = ⟨⟨0, 0, 1⟩, ⟨3, 0, -4⟩⟩ := by
    norm_num [stepRay, aim, steer, validTarget, getTarget, noteTarget, dropInvalid, isRemote,
      advanceTime, diving, inFlight, shotOf, arena, ShotPath.getPlayer, ShotPath.getVelocity,
      ShotPath.getPosition]
  have hu : (update arena diving (1 / 2)).1.nextPos = ⟨3 / 2, 0, -1⟩ ∧
      (update arena diving (1 / 2)).1.path.getPosition = ⟨3 / 2, 0, -1⟩ ∧
      (update arena diving (1 / 2)).1.path.expiring = true ∧
      (update arena diving (1 / 2)).2.filter Event.isExplosion =
        [Event.explosion ⟨3 / 2, 0, -1⟩] := by
    norm_num [update, move, aim, puff, collide, commit, isRemote, lifetimeOver, advanceTime,
      diving, inFlight, shotOf, arena, ShotPath.getPlayer, ShotPath.getStartTime,
      ShotPath.getLifetime, ShotPath.getVelocity, ShotPath.getPosition, setExpiring,
      setPosition, setVelocity, steer, validTarget, getTarget, noteTarget, dropInvalid,
      Ray.getPoint, fvec3.add, fvec3.scale, groundT, Event.isExplosion]
  rw [hray, hu.1]
  refine ⟨hrun, by norm_num, rfl, by norm_num, ?_, ?_, hu.2.2.1, rfl, hu.2.1, hu.2.2.2, ?_⟩
  · norm_num [Ray.getPoint, fvec3.add, fvec3.scale]
  · norm_num [Ray.getPoint, fvec3.add, fvec3.scale]
  · norm_num

theorem failMessages_no_explosion (env : Env F) (s : State F) (linkSrc : MeshFace) (t : F) :
    (failMessages env s linkSrc t).filter Event.isExplosion = [] ∧
    (failMessages env s linkSrc t).filter Event.isTeleport = [] := by
  unfold failMessages
  split
  · split <;> simp [Event.isExplosion, Event.isTeleport]
  · simp

theorem passMessages_no_explosion (env : Env F) (physics : LinkPhysics) :
    (passMessages env physics).filter Event.isExplosion = [] ∧
    (passMessages env physics).filter Event.isTeleport = [] := by
  unfold passMessages
  split <;> simp [Event.isExplosion, Event.isTeleport]

/-- C16: with a world present `checkBuildings` maps the collaborators'
answers to outcomes as follows.  No hit in the window: it returns `-1`, the
state is untouched and nothing is issued.  A plain obstacle, or a teleporter
entry without a resolved destination: it returns the hit time `t`, the shot
is marked expiring with every other field (`nextPos` and `nextVel` included)
untouched, and the one explosion is at `ray.getPoint(t)`, with no teleport
event.  A teleporter entry with a resolved destination: it returns `t`, the
state differs only in `nextPos` and `nextVel`, which are those handed back by
`teleportShot` (so the expiring flag is as before), no explosion is issued
and one teleport event is. -/
theorem checkBuildings_outcomes (env : Env F) (s : State F) (ray : Ray F)
    (hw : env.worldPresent = true) :
    (env.getFirstBuilding ray env.Epsilon (s.currentTime - s.prevTime) = none →
      checkBuildings env s ray = (-1, s, []) ∧ (-1 : F) < 0) ∧
    (∀ b t, env.getFirstBuilding ray env.Epsilon (s.currentTime - s.prevTime) = some (b, t) →
      (env.getShotLinkSrc b = none →
        checkBuildings env s ray = (t, setExpiring s, [Event.explosion (ray.getPoint t)])) ∧
      (∀ linkSrc, env.getShotLinkSrc b = some linkSrc →
        (env.getShotLinkDst linkSrc s.path.getShotId s.nextPos s.nextVel
            s.path.getTeam s.path.getFlag = none →
          (checkBuildings env s ray).1 = t ∧
          (checkBuildings env s ray).2.1 = setExpiring s ∧
          (checkBuildings env s ray).2.2.filter Event.isExplosion =
            [Event.explosion (ray.getPoint t)] ∧
          (checkBuildings env s ray).2.2.filter Event.isTeleport = []) ∧
        (∀ d, env.getShotLinkDst linkSrc s.path.getShotId s.nextPos s.nextVel
            s.path.getTeam s.path.getFlag = some d →
          (checkBuildings env s ray).1 = t ∧
          (checkBuildings env s ray).2.1 =
            { s with
              nextPos := (env.teleportShot linkSrc d.linkDst d.physics s.nextPos s.nextVel).1
              nextVel := (env.teleportShot linkSrc d.linkDst d.physics s.nextPos s.nextVel).2 } ∧
          (checkBuildings env s ray).2.1.path.expiring = s.path.expiring ∧
          (checkBuildings env s ray).2.2.filter Event.isExplosion = [] ∧
          (checkBuildings env s ray).2.2.filter Event.isTeleport =
            [Event.shotTeleported s.path.getShotId d.linkSrcID d.linkDstID]))) ∧
    (setExpiring s).path.expiring = true ∧
    (setExpiring s).nextPos = s.nextPos ∧ (setExpiring s).nextVel = s.nextVel := by
  refine ⟨fun hb => ⟨checkBuildings_miss env s ray hw hb, by simp⟩, ?_, rfl, rfl, rfl⟩
  intro b t hb
  refine ⟨fun hl => checkBuildings_plain env s ray b t hw hb hl, ?_⟩
  intro linkSrc hl
  refine ⟨fun hd => ?_, fun d hd => ?_⟩
  · rw [checkBuildings_unlinked env s ray b t linkSrc hw hb hl hd]
    simp [(failMessages_no_explosion env s linkSrc t).1,
      (failMessages_no_explosion env s linkSrc t).2, Event.isExplosion, Event.isTeleport]
  · rw [checkBuildings_teleport env s ray b t linkSrc d hw hb hl hd]
    simp [(passMessages_no_explosion env d.physics).1,
      (passMessages_no_explosion env d.physics).2, Event.isExplosion, Event.isTeleport]

/-- Witness for C16 in the arena: the ray of `idle` meets nothing within its
window of `1`; the ray of `entering` meets the teleporter entry at time
`1 / 2` and the shot is relocated forty units along `x`. -/
theorem checkBuildings_outcomes_witness :
    arena.worldPresent = true ∧
    checkBuildings arena idle ⟨⟨0, 0, 5⟩, ⟨1, 0, 0⟩⟩ = (-1, idle, []) ∧
    (checkBuildings arena entering ⟨⟨-19 / 2, 0, 1⟩, ⟨-1, 0, 0⟩⟩).1 = 1 / 2 ∧
    (checkBuildings arena entering ⟨⟨-19 / 2, 0, 1⟩, ⟨-1, 0, 0⟩⟩).2.1.nextPos =
      ⟨61 / 2, 0, 1⟩ ∧
    (checkBuildings arena entering ⟨⟨-19 / 2, 0, 1⟩, ⟨-1, 0, 0⟩⟩).2.1.path.expiring = false ∧
    (checkBuildings arena entering ⟨⟨-19 / 2, 0, 1⟩, ⟨-1, 0, 0⟩⟩).2.2.filter Event.isTeleport =
      [Event.shotTeleported 9 0 1] := by
  have hmiss : arena.getFirstBuilding ⟨⟨0, 0, 5⟩, ⟨1, 0, 0⟩⟩ arena.Epsilon
      (idle.currentTime - idle.prevTime) = none := by
    norm_num [arena, arenaFirstBuilding, planeTime, idle, inFlight]
  have hhit : arena.getFirstBuilding ⟨⟨-19 / 2, 0, 1⟩, ⟨-1, 0, 0⟩⟩ arena.Epsilon
      (entering.currentTime - entering.prevTime) = some (2, 1 / 2) := by
    norm_num [arena, arenaFirstBuilding, planeTime, entering, inFlight]
  have hsrc : arena.getShotLinkSrc 2 = some 7 := rfl
  have hdst : arena.getShotLinkDst 7 entering.path.getShotId entering.nextPos entering.nextVel
      entering.path.getTeam entering.path.getFlag = some ⟨8, 0, 1, ⟨0, ""⟩⟩ := rfl
  have h1 := ((checkBuildings_outcomes arena idle ⟨⟨0, 0, 5⟩, ⟨1, 0, 0⟩⟩ rfl).1 hmiss).1
  obtain ⟨ht, hs, he, -, htel⟩ :=
    (((checkBuildings_outcomes arena entering ⟨⟨-19 / 2, 0, 1⟩, ⟨-1, 0, 0⟩⟩ rfl).2.1
      2 (1 / 2) hhit).2 7 hsrc).2 _ hdst
  refine ⟨rfl, h1, ht, ?_, ?_, htel⟩
  · rw [hs]
    norm_num [arena, entering, inFlight, shotOf, ShotPath.getPosition, fvec3.add]
  · rw [he]
    rfl

/-- C17, evaluated at a failing input: the local missile `young`, started at
time `0` and now at time `1 / 2`, is ticked with `dt = 2 / 5` in the arena
whose teleporter link is out of order.  It meets the entry face, whose
failure text is not empty, at hit time `1 / 5`, that is at age
`prevTime + t - startTime = 7 / 10 < 1`; the destination is not resolved and
the shot explodes there, but no message is shown, because line 376 tests
`currentTime - startTime + t = 11 / 10`. -/
theorem fail_text_not_shown_in_first_second :
    brokenLink.getFirstBuilding (stepRay brokenLink young (2 / 5)) brokenLink.Epsilon (2 / 5) =
      some (2, 1 / 5) ∧
    brokenLink.getShotLinkSrc 2 = some 7 ∧
    brokenLink.getShotLinkDst 7 young.path.getShotId
      ((stepRay brokenLink young (2 / 5)).getPoint (2 / 5))
      (stepRay brokenLink young (2 / 5)).direction young.path.getTeam young.path.getFlag = none ∧
    brokenLink.linkSrcShotFailText 7 = "link closed" ∧
    ((update brokenLink young (2 / 5)).1.prevTime + 1 / 5) - young.path.getStartTime = 7 / 10 ∧
    ((update brokenLink young (2 / 5)).1.currentTime - young.path.getStartTime) + 1 / 5 =
      11 / 10 ∧
    (update brokenLink young (2 / 5)).1.path.expiring = true ∧
    (update brokenLink young (2 / 5)).2 =
      [Event.puff ⟨-49 / 5, 0, 1⟩ ⟨-1, 0, 0⟩, Event.explosion ⟨-10, 0, 1⟩] ∧
    (update brokenLink young (2 / 5)).2.filter Event.isMessage = [] := by
  have hray : stepRay brokenLink young (2 / 5) = ⟨⟨-49 / 5, 0, 1⟩, ⟨-1, 0, 0⟩⟩ := by
    norm_num [stepRay, aim, steer, validTarget, getTarget, noteTarget, dropInvalid, isRemote,
      advanceTime, young, inFlight, shotOf, brokenLink, arena, ShotPath.getPlayer,
      ShotPath.getVelocity, ShotPath.getPosition]
  obtain ⟨hc, hp⟩ := update_local_times brokenLink young (2 / 5) (by decide)
  have hev : (update brokenLink young (2 / 5)).2 =
      [Event.puff ⟨-49 / 5, 0, 1⟩ ⟨-1, 0, 0⟩, Event.explosion ⟨-10, 0, 1⟩] := by
    norm_num [update, move, aim, puff, collide, commit, isRemote, lifetimeOver, advanceTime,
      young, inFlight, shotOf, brokenLink, arena, ShotPath.getPlayer, ShotPath.getStartTime,
      ShotPath.getLifetime, ShotPath.getVelocity, ShotPath.getPosition, ShotPath.getShotId,
      ShotPath.getTeam, ShotPath.getFlag, setExpiring, setPosition, setVelocity, steer,
      validTarget, getTarget, noteTarget, dropInvalid, Ray.getPoint, fvec3.add, fvec3.scale,
      checkBuildings, failMessages, arenaFirstBuilding, planeTime]
  have hex : (update brokenLink young (2 / 5)).1.path.expiring = true := by
    norm_num [update, move, aim, puff, collide, commit, isRemote, lifetimeOver, advanceTime,
      young, inFlight, shotOf, brokenLink, arena, ShotPath.getPlayer, ShotPath.getStartTime,
      ShotPath.getLifetime, ShotPath.getVelocity, ShotPath.getPosition, ShotPath.getShotId,
      ShotPath.getTeam, ShotPath.getFlag, setExpiring, setPosition, setVelocity, steer,
      validTarget, getTarget, noteTarget, dropInvalid, Ray.getPoint, fvec3.add, fvec3.scale,
      checkBuildings, failMessages, arenaFirstBuilding, planeTime]
  rw [hray, hc, hp, hev]
  refine ⟨?_, rfl, rfl, rfl, ?_, ?_, hex, rfl, ?_⟩
  · norm_num [brokenLink, arena, arenaFirstBuilding, planeTime]
  · norm_num [young, inFlight, shotOf, ShotPath.getStartTime]
  · norm_num [young, inFlight, shotOf, ShotPath.getStartTime]
  · simp [Event.isMessage]

theorem noteTarget_of_remote (env : Env F) (s : State F) (h : isRemote env s = true) :
    noteTarget env s = s := by
  simp [noteTarget, h]

theorem getTarget_of_remote (env : Env F) (s : State F) (h : isRemote env s = true) :
    getTarget env s =
      (if s.lastTarget != env.NoPlayer then env.lookupPlayer s.lastTarget else none) := by
  simp [getTarget, h]

theorem dropInvalid_lastTarget (env : Env F) (t : Option (Player F)) (s : State F) :
    (dropInvalid env t s).lastTarget = s.lastTarget ∨
    (dropInvalid env t s).lastTarget = env.NoPlayer := by
  unfold dropInvalid
  split
  · exact Or.inl rfl
  · split
    · exact Or.inr rfl
    · exact Or.inl rfl

theorem checkBuildings_lastTarget (env : Env F) (s : State F) (ray : Ray F) :
    (checkBuildings env s ray).2.1.lastTarget = s.lastTarget ∧
    (checkBuildings env s ray).2.1.needUpdate = s.needUpdate := by
  unfold checkBuildings
  split
  · exact ⟨rfl, rfl⟩
  · split
    · exact ⟨rfl, rfl⟩
    · split
      · exact ⟨rfl, rfl⟩
      · split <;> exact ⟨rfl, rfl⟩

theorem move_lastTarget (env : Env F) (a : State F) (dt : F) :
    (move env a dt).1.lastTarget = a.lastTarget ∧
    (move env a dt).1.needUpdate = a.needUpdate := by
  have hc : ∀ (u : State F) (r : Ray F),
      (collide env u r).2.1.lastTarget = u.lastTarget ∧
      (collide env u r).2.1.needUpdate = u.needUpdate := by
    intro u r
    unfold collide
    split
    · exact ⟨rfl, rfl⟩
    · exact checkBuildings_lastTarget env u r
  simp [move, commit, setVelocity, setPosition, (hc _ _).1, (hc _ _).2, puff_fst]

theorem aim_of_remote (env : Env F) (s : State F) (dt : F) (h : isRemote env s = true)
    (other : Option (Player F)) :
    aim (env.withTarget other) s dt = aim env s dt := by
  have h2 : isRemote (env.withTarget other) s = true := h
  have hn : noteTarget (env.withTarget other) s = noteTarget env s := by
    rw [noteTarget_of_remote _ _ h2, noteTarget_of_remote _ _ h]
  have hg : getTarget (env.withTarget other) s = getTarget env s := by
    rw [getTarget_of_remote _ _ h2, getTarget_of_remote _ _ h]
    rfl
  unfold aim
  rw [hn, hg]
  rfl

theorem update_withTarget_of_remote (env : Env F) (s : State F) (dt : F)
    (h : isRemote env s = true) (other : Option (Player F)) :
    update (env.withTarget other) s dt = update env s dt := by
  have h2 : isRemote (env.withTarget other) s = true := h
  have ha : isRemote env (advanceTime s dt) = true := h
  unfold update
  rw [h, h2, aim_of_remote env _ dt ha other]
  rfl

theorem validTarget_eq_some (target : Option (Player F)) (tg : Player F)
    (h : validTarget target = some tg) : target = some tg := by
  unfold validTarget at h
  split at h
  · exact absurd h (by simp)
  · split at h
    · exact absurd h (by simp)
    · exact h

theorem update_lastTarget_of_remote (env : Env F) (s : State F) (dt : F)
    (h : isRemote env s = true) :
    (update env s dt).1.lastTarget = s.lastTarget ∨
    (update env s dt).1.lastTarget = env.NoPlayer := by
  unfold update
  split
  · exact Or.inl rfl
  · split
    · exact Or.inl rfl
    · rw [(move_lastTarget env _ dt).1]
      have ha : isRemote env (advanceTime s dt) = true := h
      have : (aim env (advanceTime s dt) dt).lastTarget =
          (dropInvalid env (getTarget env (advanceTime s dt))
            (noteTarget env (advanceTime s dt))).lastTarget := rfl
      rw [this, noteTarget_of_remote env _ ha]
      exact dropInvalid_lastTarget env _ _

theorem dot_self_nonneg (v : fvec3 F) : 0 ≤ fvec3.dot v v := by
  unfold fvec3.dot
  nlinarith [mul_self_nonneg v.x, mul_self_nonneg v.y, mul_self_nonneg v.z]

theorem dot_scale_scale (k : F) (v : fvec3 F) :
    fvec3.dot (fvec3.scale k v) (fvec3.scale k v) = k * k * fvec3.dot v v := by
  simp only [fvec3.dot, fvec3.scale]
  ring

theorem rodrigues_dot (sin cos : F → F) (v : fvec3 F) (radians : F) (n : fvec3 F)
    (hn : fvec3.dot n n = 1) (hsc : sin radians * sin radians + cos radians * cos radians = 1) :
    fvec3.dot (rodrigues sin cos v radians n) (rodrigues sin cos v radians n) =
      fvec3.dot v v := by
  simp only [fvec3.dot, rodrigues, fvec3.add, fvec3.scale, fvec3.cross] at hn ⊢
  linear_combination
    (sin radians * sin radians * (v.x * v.x + v.y * v.y + v.z * v.z) +
      (n.x * v.x + n.y * v.y + n.z * v.z) * (n.x * v.x + n.y * v.y + n.z * v.z) *
        (1 - cos radians) * (1 - cos radians)) * hn +
    ((v.x * v.x + v.y * v.y + v.z * v.z) -
      (n.x * v.x + n.y * v.y + n.z * v.z) * (n.x * v.x + n.y * v.y + n.z * v.z)) * hsc

theorem rlength_mul_self (v : fvec3 ℝ) :
    euclidLength Real.sqrt v * euclidLength Real.sqrt v = fvec3.dot v v :=
  Real.mul_self_sqrt (dot_self_nonneg v)

theorem rlength_scale (k : ℝ) (v : fvec3 ℝ) :
    euclidLength Real.sqrt (fvec3.scale k v) = |k| * euclidLength Real.sqrt v := by
  unfold euclidLength
  rw [dot_scale_scale, Real.sqrt_mul (mul_self_nonneg k), Real.sqrt_mul_self_eq_abs]

theorem rlength_normalize (v : fvec3 ℝ) (h : 0 < euclidLength Real.sqrt v) :
    euclidLength Real.sqrt (euclidNormalize Real.sqrt v) = 1 := by
  unfold euclidNormalize
  rw [if_neg h.ne', rlength_scale, abs_of_pos (by positivity)]
  field_simp

theorem rlength_rodrigues (v : fvec3 ℝ) (radians : ℝ) (n : fvec3 ℝ)
    (hn : euclidLength Real.sqrt n = 1) :
    euclidLength Real.sqrt (rodrigues Real.sin Real.cos v radians n) =
      euclidLength Real.sqrt v := by
  have hn2 : fvec3.dot n n = 1 := by
    rw [← rlength_mul_self, hn, mul_one]
  unfold euclidLength
  rw [rodrigues_dot Real.sin Real.cos v radians n hn2
    (by have := Real.sin_sq_add_cos_sq radians; nlinarith)]

theorem rlength_axis (c : fvec3 ℝ) (h : 0 < euclidLength Real.sqrt c) :
    euclidLength Real.sqrt (fvec3.scale (1 / euclidLength Real.sqrt c) c) = 1 := by
  rw [rlength_scale, abs_of_pos (by positivity)]
  field_simp

theorem rlength_steer (env : Env ℝ) (he : env.IsEuclidean) (target : Option (Player ℝ))
    (pos vel : fvec3 ℝ) (speed dt : ℝ) (hspeed : 0 < speed) (hvel : env.length vel = speed) :
    env.length (steer env target pos vel speed dt) = speed := by
  obtain ⟨hlen, hnorm, hrot, -⟩ := he
  cases target with
  | none => exact hvel
  | some tg =>
    simp only [steer]
    split
    · rename_i hpos
      rw [hlen] at hpos hvel ⊢
      rw [hnorm] at hpos ⊢
      rw [hrot, rlength_scale, abs_of_pos hspeed, rlength_normalize, mul_one]
      rw [rlength_rodrigues _ _ _ (rlength_axis _ hpos), hvel]
      exact hspeed
    · exact hvel

theorem update_nextVel_of_no_teleport (env : Env F) (s : State F) (dt : F)
    (hrun : runsToCompletion env s dt = true)
    (hno : ∀ e ∈ (update env s dt).2, Event.isTeleport e = false) :
    (update env s dt).1.nextVel =
      steer env (validTarget (getTarget env s)) s.nextPos s.path.getVelocity s.speed dt ∧
    (update env s dt).1.path.getVelocity = (update env s dt).1.nextVel := by
  rw [update_of_completion env s dt hrun] at hno ⊢
  rw [move_nextVel_of_no_teleport env _ dt hno, aim_nextVel, getTarget_advanceTime,
    move_path_velocity, move_nextVel_of_no_teleport env _ dt hno, aim_nextVel,
    getTarget_advanceTime]
  exact ⟨rfl, rfl⟩

theorem checkBuildings_speed (env : Env F) (s : State F) (ray : Ray F) :
    (checkBuildings env s ray).2.1.speed = s.speed := by
  unfold checkBuildings
  split
  · rfl
  · split
    · rfl
    · split
      · rfl
      · split <;> rfl

theorem construct_of_no_teleport (env : Env F) (path : ShotPath F)
    (hno : ∀ e ∈ (construct env path).2, Event.isTeleport e = false) :
    (construct env path).1.speed = env.shotSpeed * env.gmAdSpeed ∧
    (construct env path).1.nextVel =
      fvec3.scale (env.shotSpeed * env.gmAdSpeed) (env.normalize path.getVelocity) := by
  constructor
  · simp only [construct]
    rw [checkBuildings_speed]
  · simp only [construct] at hno ⊢
    rw [checkBuildings_nextVel_of_no_teleport _ _ _ hno]
    rfl

theorem checkBuildings_events_of_no_hit (env : Env F) (s : State F) (ray : Ray F)
    (h : ∀ r a b, env.getFirstBuilding r a b = none) :
    (checkBuildings env s ray).2.2 = [] := by
  unfold checkBuildings
  split
  · rfl
  · rw [h]

theorem update_no_teleport_of_no_hit (env : Env F) (s : State F) (dt : F)
    (h : ∀ r a b, env.getFirstBuilding r a b = none) :
    ∀ e ∈ (update env s dt).2, Event.isTeleport e = false := by
  intro e he
  unfold update at he
  split at he
  · simp at he
  · split at he
    · simp at he
      rw [he]; rfl
    · simp only [move, List.mem_append] at he
      rcases he with he | he
      · unfold puff at he
        split at he
        · simp at he
          rw [he]; rfl
        · simp at he
      · unfold collide at he
        split at he
        · simp at he
          rw [he]; rfl
        · rw [checkBuildings_events_of_no_hit env _ _ h] at he
          simp at he

theorem rnormalize_scale_unit (k : ℝ) (u : fvec3 ℝ) (hk : 0 < k)
    (hu : euclidLength Real.sqrt u = 1) :
    euclidNormalize Real.sqrt (fvec3.scale k u) = u := by
  have hl : euclidLength Real.sqrt (fvec3.scale k u) = k := by
    rw [rlength_scale, hu, abs_of_pos hk, mul_one]
  unfold euclidNormalize
  rw [hl, if_neg hk.ne']
  obtain ⟨x, y, z⟩ := u
  simp only [fvec3.scale, fvec3.mk.injEq]
  refine ⟨?_, ?_, ?_⟩ <;> field_simp

/-- C12 (as amended), for an environment over `ℝ` whose vector library is the
Euclidean one.  After a construction in which the first segment is not
teleported, from a non-zero fired velocity and with
`speed = shotSpeed * gmAdSpeed > 0`, `nextVel` has magnitude `speed` and the
direction of the fired velocity.  For every `update(dt)` that starts from a
committed path velocity of magnitude `speed > 0` and in which no teleport
occurs, the committed velocity again has magnitude `speed`, and so has
`nextVel` when the tick runs to completion, whether or not steering was
applied. -/
theorem velocity_magnitude_invariant (env : Env ℝ) (he : env.IsEuclidean) :
    (∀ path : ShotPath ℝ, 0 < env.shotSpeed * env.gmAdSpeed →
      0 < env.length path.getVelocity →
      (∀ e ∈ (construct env path).2, Event.isTeleport e = false) →
      (construct env path).1.speed = env.shotSpeed * env.gmAdSpeed ∧
      env.length (construct env path).1.nextVel = env.shotSpeed * env.gmAdSpeed ∧
      env.normalize (construct env path).1.nextVel = env.normalize path.getVelocity) ∧
    (∀ (s : State ℝ) (dt : ℝ), 0 < s.speed → env.length s.path.getVelocity = s.speed →
      (∀ e ∈ (update env s dt).2, Event.isTeleport e = false) →
      env.length (update env s dt).1.path.getVelocity = s.speed ∧
      (runsToCompletion env s dt = true → env.length (update env s dt).1.nextVel = s.speed)) := by
  have he2 := he
  obtain ⟨hlen, hnorm, -, -⟩ := he2
  constructor
  · intro path hspeed hvel hno
    obtain ⟨h1, h2⟩ := construct_of_no_teleport env path hno
    rw [hlen] at hvel
    have hu : euclidLength Real.sqrt (euclidNormalize Real.sqrt path.getVelocity) = 1 :=
      rlength_normalize _ hvel
    rw [h2, hlen, hnorm]
    refine ⟨h1, ?_, rnormalize_scale_unit _ _ hspeed hu⟩
    rw [rlength_scale, hu, abs_of_pos hspeed, mul_one]
  · intro s dt hspeed hvel hno
    have hdone : runsToCompletion env s dt = true →
        env.length (update env s dt).1.nextVel = s.speed := by
      intro hrun
      rw [(update_nextVel_of_no_teleport env s dt hrun hno).1]
      exact rlength_steer env he _ _ _ _ _ hspeed hvel
    refine ⟨?_, hdone⟩
    cases hrun : runsToCompletion env s dt with
    | true =>
      rw [(update_nextVel_of_no_teleport env s dt hrun hno).2]
      exact hdone hrun
    | false =>
      have : (update env s dt).1.path.getVelocity = s.path.getVelocity := by
        simp [ShotPath.getVelocity, update_path_of_early_return env s dt hrun]
      rw [this]
      exact hvel

/-- Counterexample to C12 as stated: the missile `firedThroughLink` is
constructed in the arena whose teleporter turns the shot; `speed` is
`shotSpeed * gmAdSpeed = 1 > 0` and the fired direction is `(-1, 0, 0)`, but
the first segment crosses the teleporter entry, `checkBuildings` teleports
the shot inside the constructor, and `nextVel` comes out as `(0, -1, 0)`,
which is not `speed` times the fired direction. -/
theorem velocity_magnitude_invariant_counterexample :
    turningArena.shotSpeed * turningArena.gmAdSpeed = 1 ∧
    (construct turningArena firedThroughLink).1.speed = 1 ∧
    turningArena.normalize firedThroughLink.getVelocity = ⟨-1, 0, 0⟩ ∧
    (construct turningArena firedThroughLink).2 = [Event.shotTeleported 9 0 1] ∧
    (construct turningArena firedThroughLink).1.nextVel = ⟨0, -1, 0⟩ ∧
    turningArena.normalize (construct turningArena firedThroughLink).1.nextVel = ⟨0, -1, 0⟩ ∧
    turningArena.normalize (construct turningArena firedThroughLink).1.nextVel ≠
      turningArena.normalize firedThroughLink.getVelocity := by
  have hd : turningArena.normalize firedThroughLink.getVelocity = ⟨-1, 0, 0⟩ := by
    norm_num [turningArena, arena, firedThroughLink, shotOf, ShotPath.getVelocity, qNormalize,
      qLength_x, fvec3.scale]
  have hv : (construct turningArena firedThroughLink).1.nextVel = ⟨0, -1, 0⟩ := by
    norm_num [construct, turningArena, arena, firedThroughLink, shotOf, checkBuildings,
      passMessages, qNormalize, qLength_x, fvec3.scale, fvec3.sub, fvec3.add,
      ShotPath.getVelocity, ShotPath.getPosition, ShotPath.getStartTime, ShotPath.getShotId,
      ShotPath.getTeam, ShotPath.getFlag, arenaFirstBuilding, planeTime]
  have he : (construct turningArena firedThroughLink).2 = [Event.shotTeleported 9 0 1] := by
    norm_num [construct, turningArena, arena, firedThroughLink, shotOf, checkBuildings,
      passMessages, qNormalize, qLength_x, fvec3.scale, fvec3.sub, fvec3.add,
      ShotPath.getVelocity, ShotPath.getPosition, ShotPath.getStartTime, ShotPath.getShotId,
      ShotPath.getTeam, ShotPath.getFlag, arenaFirstBuilding, planeTime]
  have hs : (construct turningArena firedThroughLink).1.speed = 1 := by
    simp only [construct]
    rw [checkBuildings_speed]
    norm_num [turningArena, arena]
  have hn : turningArena.normalize (⟨0, -1, 0⟩ : fvec3 ℚ) = ⟨0, -1, 0⟩ := by
    norm_num [turningArena, arena, qNormalize, qLength_y, fvec3.scale]
  rw [hv, hd, hn]
  refine ⟨by norm_num [turningArena, arena], hs, rfl, he, rfl, rfl, ?_⟩
  intro h
  have := congrArg fvec3.x h
  norm_num at this

/-- Witness for C12 as amended, over `ℝ` with the Euclidean library: the
missile `cruising` (velocity `(1, 0, 0)`, speed `1`) is turned towards the
player `bystander` by a tick of one time unit and keeps magnitude `1`. -/
theorem velocity_magnitude_invariant_witness :
    (range Real.sqrt Real.sin Real.cos Real.arcsin (some bystander)).IsEuclidean ∧
    ((0 : ℝ) < (cruising : State ℝ).speed ∧
      (range Real.sqrt Real.sin Real.cos Real.arcsin (some bystander)).length
        (cruising : State ℝ).path.getVelocity = (cruising : State ℝ).speed ∧
      runsToCompletion (range Real.sqrt Real.sin Real.cos Real.arcsin (some bystander))
        cruising 1 = true) ∧
    (range Real.sqrt Real.sin Real.cos Real.arcsin (some bystander)).length
      (update (range Real.sqrt Real.sin Real.cos Real.arcsin (some bystander))
        cruising 1).1.nextVel = 1 := by
  have he : (range Real.sqrt Real.sin Real.cos Real.arcsin (some bystander)).IsEuclidean :=
    ⟨rfl, rfl, rfl, rfl⟩
  have hs : (0 : ℝ) < (cruising : State ℝ).speed := by norm_num [cruising]
  have hv : (range Real.sqrt Real.sin Real.cos Real.arcsin (some bystander)).length
      (cruising : State ℝ).path.getVelocity = (cruising : State ℝ).speed := by
    simp [range, cruising, euclidLength, fvec3.dot, ShotPath.getVelocity]
  have hrun : runsToCompletion (range Real.sqrt Real.sin Real.cos Real.arcsin (some bystander))
      cruising 1 = true := by
    norm_num [runsToCompletion, isRemote, lifetimeOver, advanceTime, range, cruising,
      ShotPath.getPlayer, ShotPath.getStartTime, ShotPath.getLifetime]
  have h := ((velocity_magnitude_invariant _ he).2 cruising 1 hs hv
    (update_no_teleport_of_no_hit _ _ _ (fun _ _ _ => rfl))).2 hrun
  exact ⟨he, ⟨hs, hv, hrun⟩, h⟩

/-- The result of `_predict` as a call is the value of `_predict`, and the
call leaves the state and issues nothing, on every path through the body. -/
theorem predictCall_eq (env : Env F) (s : State F) (dt : F) :
    _predictCall env s dt = (s, [], _predict env s dt) := by
  unfold _predictCall _predict
  split
  · rfl
  · split
    · rfl
    · simp only
      split
      · rfl
      · split
        · rfl
        · split
          · rfl
          · split <;> rfl

/-- C11: a call of `_predict`, and so of `predictPosition` and
`predictVelocity`, leaves every field of the missile state as it was and
issues no notification, whichever `return` of the body is taken; hence a
second call with the same `dt` and the same collaborators, made on the state
the first call left, returns the same success flag, position and velocity. -/
theorem predict_leaves_state (env : Env F) (s : State F) (dt : F) :
    (_predictCall env s dt).1 = s ∧
    (_predictCall env s dt).2.1 = [] ∧
    (predictPositionCall env s dt).1 = s ∧ (predictPositionCall env s dt).2.1 = [] ∧
    (predictVelocityCall env s dt).1 = s ∧ (predictVelocityCall env s dt).2.1 = [] ∧
    (_predictCall env (_predictCall env s dt).1 dt).2.2 = (_predictCall env s dt).2.2 ∧
    (predictPositionCall env (predictPositionCall env s dt).1 dt).2.2 =
      (predictPositionCall env s dt).2.2 ∧
    (predictVelocityCall env (predictVelocityCall env s dt).1 dt).2.2 =
      (predictVelocityCall env s dt).2.2 ∧
    (_predictCall env s dt).2.2 = _predict env s dt ∧
    (predictPositionCall env s dt).2.2 = predictPosition env s dt ∧
    (predictVelocityCall env s dt).2.2 = predictVelocity env s dt := by
  have h := predictCall_eq env s dt
  have h1 : (_predictCall env s dt).1 = s := by rw [h]
  have h2 : (_predictCall env s dt).2.1 = [] := by rw [h]
  have h3 : (_predictCall env s dt).2.2 = _predict env s dt := by rw [h]
  have hp1 : (predictPositionCall env s dt).1 = s := h1
  have hv1 : (predictVelocityCall env s dt).1 = s := h1
  refine ⟨h1, h2, hp1, h2, hv1, h2, ?_, ?_, ?_, h3, ?_, ?_⟩
  · rw [h1]
  · rw [hp1]
  · rw [hv1]
  · simp only [predictPositionCall, predictPosition, h3]
  · simp only [predictVelocityCall, predictVelocity, h3]

/-- Witness for C11: the missile `entering`, whose predicted step crosses the
teleporter entry.  The call returns `true` with the relocated position, the
state is `entering` as before and nothing is issued; a second call on the
state left by the first returns the same. -/
theorem predict_leaves_state_witness :
    _predictCall arena entering 1 =
      (entering, [], some (⟨59 / 2, 0, 1⟩, ⟨-1, 0, 0⟩)) ∧
    _predictCall arena (_predictCall arena entering 1).1 1 =
      (entering, [], some (⟨59 / 2, 0, 1⟩, ⟨-1, 0, 0⟩)) ∧
    (predictPositionCall arena entering 1).2.2 = some ⟨59 / 2, 0, 1⟩ ∧
    (predictVelocityCall arena entering 1).2.2 = some ⟨-1, 0, 0⟩ := by
  have hp : (_predictCall arena entering 1).2.2 = some (⟨59 / 2, 0, 1⟩, ⟨-1, 0, 0⟩) := by
    norm_num [_predictCall, arena, entering, inFlight, shotOf, ShotPath.getStartTime,
      ShotPath.getLifetime, ShotPath.getPlayer, ShotPath.getVelocity, ShotPath.getPosition,
      ShotPath.getShotId, ShotPath.getTeam, ShotPath.getFlag,
      steer, validTarget, getTarget, isRemote, Ray.getPoint, fvec3.add, fvec3.scale,
      arenaFirstBuilding, planeTime]
  obtain ⟨h1, h2, -, -, -, -, h7, -, -, -, -, -⟩ := predict_leaves_state arena entering 1
  have hc : _predictCall arena entering 1 =
      (entering, [], some (⟨59 / 2, 0, 1⟩, ⟨-1, 0, 0⟩)) :=
    Prod.ext h1 (Prod.ext h2 hp)
  refine ⟨hc, ?_, ?_, ?_⟩
  · rw [hc]
    exact hc
  · simp only [predictPositionCall, hp, Option.map_some']
  · simp only [predictVelocityCall, hp, Option.map_some']

theorem runsToCompletion_of_remote (env : Env F) (s : State F) (dt : F)
    (h : isRemote env s = true) (hdt : 0 ≤ dt) : runsToCompletion env s dt = true := by
  have ha : isRemote env (advanceTime s dt) = true := h
  simp [runsToCompletion, h, not_lt.2 hdt]

theorem update_head_ray (env : Env F) (s : State F) (dt : F)
    (hrun : runsToCompletion env s dt = true) (hlen : s.segments.length = 4) :
    (update env s dt).1.segments.head?.map ShotPathSegment.ray = some (stepRay env s dt) := by
  rw [update_of_completion env s dt hrun, move_segments,
    dropLast_cons_of_length_four _ _ (by simp [aim_segments, advanceTime, hlen]), stepRay_eq]
  rfl

/-- C14: on a remote shot `update` leaves `lastTarget` at its old value or at
the sentinel; a player is steered toward only if `lastTarget` is not the
sentinel and the registry resolves `lastTarget` to that player; for `dt ≥ 0`
the head segment that `update` stores carries the ray from `nextPos` along the
velocity steered toward the (valid) player the registry resolves `lastTarget`
to, and absent a teleport that velocity is the `nextVel` and the committed
velocity of the result; the result of `update` is the same whatever target the
local player has selected; and after `readUpdate` has stored the identifier
`b`, the next `update` stores the ray, and absent a teleport commits the
velocity, steered toward the player the registry resolves `b` to. -/
theorem remote_never_chooses_target (env : Env F) (s : State F) (dt : F)
    (hremote : s.path.getPlayer ≠ env.myTankId) :
    ((update env s dt).1.lastTarget = s.lastTarget ∨
      (update env s dt).1.lastTarget = env.NoPlayer) ∧
    (∀ tg, validTarget (getTarget env s) = some tg →
      s.lastTarget ≠ env.NoPlayer ∧ env.lookupPlayer s.lastTarget = some tg) ∧
    (0 ≤ dt → s.segments.length = 4 →
      (update env s dt).1.segments.head?.map ShotPathSegment.ray =
        some ⟨s.nextPos,
          steer env
            (validTarget
              (if s.lastTarget != env.NoPlayer then env.lookupPlayer s.lastTarget else none))
            s.nextPos s.path.getVelocity s.speed dt⟩) ∧
    (0 ≤ dt → (∀ e ∈ (update env s dt).2, Event.isTeleport e = false) →
      (update env s dt).1.nextVel =
        steer env
          (validTarget
            (if s.lastTarget != env.NoPlayer then env.lookupPlayer s.lastTarget else none))
          s.nextPos s.path.getVelocity s.speed dt ∧
      (update env s dt).1.path.getVelocity = (update env s dt).1.nextVel) ∧
    (∀ other, update (env.withTarget other) s dt = update env s dt) ∧
    (∀ (b : Byte) (rest : List Byte), ∃ s1,
      readUpdate s (b :: rest) = some (s1, []) ∧
      s1.lastTarget = b ∧
      (0 ≤ dt → s.segments.length = 4 →
        (update env s1 dt).1.segments.head?.map ShotPathSegment.ray =
          some ⟨s.path.getPosition,
            steer env (validTarget (if b != env.NoPlayer then env.lookupPlayer b else none))
              s.path.getPosition s.path.getVelocity s.speed dt⟩) ∧
      (0 ≤ dt → (∀ e ∈ (update env s1 dt).2, Event.isTeleport e = false) →
        (update env s1 dt).1.nextVel =
          steer env (validTarget (if b != env.NoPlayer then env.lookupPlayer b else none))
            s.path.getPosition s.path.getVelocity s.speed dt)) := by
  have h : isRemote env s = true := (isRemote_eq_true_iff env s).2 hremote
  have hg := getTarget_of_remote env s h
  refine ⟨update_lastTarget_of_remote env s dt h, ?_, ?_, ?_,
    fun other => update_withTarget_of_remote env s dt h other, ?_⟩
  · intro tg htg
    have h1 := validTarget_eq_some _ tg htg
    rw [hg] at h1
    by_cases hn : s.lastTarget = env.NoPlayer
    · simp [hn] at h1
    · refine ⟨hn, ?_⟩
      simpa [hn] using h1
  · intro hdt hlen
    rw [update_head_ray env s dt (runsToCompletion_of_remote env s dt h hdt) hlen,
      stepRay_eq_steer, hg]
  · intro hdt hno
    have hu := update_nextVel_of_no_teleport env s dt
      (runsToCompletion_of_remote env s dt h hdt) hno
    rw [hg] at hu
    exact hu
  · intro b rest
    have h1 : isRemote env
        { s with
          lastTarget := b
          nextPos := s.path.getPosition
          nextVel := s.path.getVelocity } = true := h
    refine ⟨{ s with
        lastTarget := b
        nextPos := s.path.getPosition
        nextVel := s.path.getVelocity }, by simp [readUpdate, nboUnpackUInt8], rfl, ?_, ?_⟩
    · intro hdt hlen
      rw [update_head_ray env _ dt (runsToCompletion_of_remote env _ dt h1 hdt) hlen,
        stepRay_eq_steer, getTarget_of_remote env _ h1]
    · intro hdt hno
      have hu := update_nextVel_of_no_teleport env _ dt
        (runsToCompletion_of_remote env _ dt h1 hdt) hno
      rw [getTarget_of_remote env _ h1] at hu
      exact hu.1

/-- Witness for C14: the remote missile `pursuing` records target `2`, which
the registry resolves to `player2`, straight ahead: a tick of `1 / 2` keeps
`lastTarget`, flies on with velocity `(1, 0, 0)` to `(1 / 2, 0, 1)`, and gives
the same result when the local player is locked on the stealth player.  The
remote missile `passing` has `player2` at right angles to its course: the
head segment of its tick carries the velocity turned by `1 / 4` toward
`player2`, also when the local player is locked on the stealth player. -/
theorem remote_never_chooses_target_witness :
    pursuing.path.getPlayer ≠ arena.myTankId ∧
    arena.lookupPlayer pursuing.lastTarget = some player2 ∧
    update (arena.withTarget (some ghost)) pursuing (1 / 2) = update arena pursuing (1 / 2) ∧
    (update arena pursuing (1 / 2)).1.lastTarget = 2 ∧
    (update arena pursuing (1 / 2)).1.nextVel = ⟨1, 0, 0⟩ ∧
    (update arena pursuing (1 / 2)).1.nextPos = ⟨1 / 2, 0, 1⟩ ∧
    (update (arena.withTarget (some ghost)) passing (1 / 2)).1.segments.head?.map
        ShotPathSegment.ray =
      some ⟨⟨5, -5, 1⟩,
        fvec3.scale 1 (arena.normalize (arena.rotate ⟨-1, 0, 0⟩ (1 / 4) ⟨0, 0, -1⟩))⟩ := by
  have hne : (3 : PlayerId) ≠ 1 := by decide
  have hremote : pursuing.path.getPlayer ≠ arena.myTankId := by decide
  have hremote2 : passing.path.getPlayer ≠ arena.myTankId := by decide
  have hv : validTarget (getTarget arena pursuing) = some player2 := by
    simp [validTarget, getTarget, isRemote, arena, pursuing, inFlight, shotOf,
      ShotPath.getPlayer, player2]
  have h := remote_never_chooses_target arena pursuing (1 / 2) hremote
  have h2 := remote_never_chooses_target arena passing (1 / 2) hremote2
  have hl : (update arena pursuing (1 / 2)).1.lastTarget = 2 := by
    norm_num [update, move, aim, puff, collide, commit, isRemote, lifetimeOver, advanceTime,
      pursuing, inFlight, shotOf, arena, ShotPath.getPlayer, ShotPath.getStartTime,
      ShotPath.getLifetime, ShotPath.getVelocity, ShotPath.getPosition, ShotPath.getShotId,
      ShotPath.getTeam, ShotPath.getFlag, setExpiring, setPosition, setVelocity, steer,
      validTarget, getTarget, noteTarget, dropInvalid, desiredDir, player2, Ray.getPoint,
      fvec3.add, fvec3.sub, fvec3.scale, fvec3.cross, qNormalize, qLength_x, checkBuildings,
      arenaFirstBuilding, planeTime, hne, (by decide : (2 : PlayerId) ≠ 255)]
  have hvel : (update arena pursuing (1 / 2)).1.nextVel = ⟨1, 0, 0⟩ := by
    norm_num [update, move, aim, puff, collide, commit, isRemote, lifetimeOver, advanceTime,
      pursuing, inFlight, shotOf, arena, ShotPath.getPlayer, ShotPath.getStartTime,
      ShotPath.getLifetime, ShotPath.getVelocity, ShotPath.getPosition, ShotPath.getShotId,
      ShotPath.getTeam, ShotPath.getFlag, setExpiring, setPosition, setVelocity, steer,
      validTarget, getTarget, noteTarget, dropInvalid, desiredDir, player2, Ray.getPoint,
      fvec3.add, fvec3.sub, fvec3.scale, fvec3.cross, qNormalize, qLength_x, checkBuildings,
      arenaFirstBuilding, planeTime, hne, (by decide : (2 : PlayerId) ≠ 255)]
  have hpos : (update arena pursuing (1 / 2)).1.nextPos = ⟨1 / 2, 0, 1⟩ := by
    norm_num [update, move, aim, puff, collide, commit, isRemote, lifetimeOver, advanceTime,
      pursuing, inFlight, shotOf, arena, ShotPath.getPlayer, ShotPath.getStartTime,
      ShotPath.getLifetime, ShotPath.getVelocity, ShotPath.getPosition, ShotPath.getShotId,
      ShotPath.getTeam, ShotPath.getFlag, setExpiring, setPosition, setVelocity, steer,
      validTarget, getTarget, noteTarget, dropInvalid, desiredDir, player2, Ray.getPoint,
      fvec3.add, fvec3.sub, fvec3.scale, fvec3.cross, qNormalize, qLength_x, checkBuildings,
      arenaFirstBuilding, planeTime, hne, (by decide : (2 : PlayerId) ≠ 255)]
  have hcross : fvec3.cross (arena.normalize passing.path.getVelocity)
      (desiredDir arena player2 passing.nextPos) = ⟨0, 0, -1⟩ := by
    norm_num [desiredDir, arena, player2, passing, inFlight, shotOf, ShotPath.getPosition,
      ShotPath.getVelocity, fvec3.sub, fvec3.scale, fvec3.cross, qNormalize, qLength_x,
      qLength_y]
  have hdot : fvec3.dot (arena.normalize passing.path.getVelocity)
      (desiredDir arena player2 passing.nextPos) = 0 := by
    norm_num [desiredDir, arena, player2, passing, inFlight, shotOf, ShotPath.getPosition,
      ShotPath.getVelocity, fvec3.sub, fvec3.scale, fvec3.dot, qNormalize, qLength_x,
      qLength_y]
  have hlook : (if passing.lastTarget != arena.NoPlayer then
      arena.lookupPlayer passing.lastTarget else none) = some player2 := by
    simp [arena, passing, inFlight]
  have hsteer : steer arena (validTarget (some player2)) passing.nextPos
      passing.path.getVelocity passing.speed (1 / 2) =
      fvec3.scale 1 (arena.normalize (arena.rotate ⟨-1, 0, 0⟩ (1 / 4) ⟨0, 0, -1⟩)) := by
    have hval : validTarget (some player2) = some player2 := by
      simp [validTarget, player2]
    rw [hval]
    simp only [steer]
    rw [hcross]
    have hlen : arena.length ⟨0, 0, -1⟩ = 1 := by norm_num [arena, qLength_z]
    rw [hlen, if_pos (by norm_num)]
    have hturn : turnAngle arena (arena.normalize passing.path.getVelocity)
        (desiredDir arena player2 passing.nextPos) 1 (1 / 2) = 1 / 4 := by
      unfold turnAngle
      rw [hdot]
      norm_num [arena, qAsin]
    rw [hturn]
    norm_num [passing, inFlight, shotOf, ShotPath.getVelocity, fvec3.scale]
  have hhead := h2.2.2.1 (by norm_num) (by simp [passing, inFlight])
  rw [hlook, hsteer] at hhead
  refine ⟨hremote, (h.2.1 player2 hv).2, h.2.2.2.2.1 (some ghost), hl, hvel, hpos, ?_⟩
  rw [h2.2.2.2.2.1 (some ghost)]
  exact hhead

/-- In the ground branch `collide` returns the end time of lines 204-205 with
the sum taken exactly. -/
theorem collide_ground_end (env : Env F) (s : State F) (ray : Ray F) (h : s.nextPos.z ≤ 0) :
    (collide env s ray).1 =
      groundEndTime (fun x => x) s.prevTime s.currentTime (groundT ray s.nextPos) := by
  unfold collide groundEndTime
  rw [if_pos h]

end GuidedMissileStrategy
